import Mathlib

/-!
Verification development for the log-timeline, state-wait and batch-orchestration
helpers of `ocs_ci/helpers/helpers.py`.

The Python helpers are shallowly embedded: pure string/timestamp processing becomes
executable Lean functions on `List Char`; Python exceptions become `Except Exc`;
collaborator calls (the orchestrator client, pod-log fetching, the system clock's
current year) become explicit parameters; the side effects performed on collaborators
are recorded in an explicit event trace.
-/

namespace OcsHelpers

/-- Python exceptions raised (directly or from library calls) by the embedded code. -/
inductive Exc where
  | timeoutExpired
  | resourceWrongStatus (name : String) (describeText : String)
  | commandFailed (msg : String)
  | indexError
  | typeError
  | valueError
  | unboundLocal
  | unexpectedBehaviour (names : List String)
  deriving DecidableEq, Repr

instance {ε α : Type} [DecidableEq ε] [DecidableEq α] : DecidableEq (Except ε α) :=
  fun x y =>
    match x, y with
    | .ok a, .ok b =>
      if h : a = b then .isTrue (by rw [h]) else .isFalse (by intro hc; cases hc; exact h rfl)
    | .error a, .error b =>
      if h : a = b then .isTrue (by rw [h]) else .isFalse (by intro hc; cases hc; exact h rfl)
    | .ok _, .error _ => .isFalse (by intro hc; cases hc)
    | .error _, .ok _ => .isFalse (by intro hc; cases hc)

/-! ## Python string primitives, embedded on `List Char` -/

/-- Python `s.split(sep)` for a one-character separator: splits on every occurrence,
keeping empty pieces, and returns `[[]]` on the empty string. -/
def splitOnChar (sep : Char) : List Char → List (List Char)
  | [] => [[]]
  | c :: rest =>
    let r := splitOnChar sep rest
    if c = sep then [] :: r
    else
      match r with
      | h :: t => (c :: h) :: t
      | [] => [[c]]

/-- Python `sep.join(pieces)` for a one-character separator. -/
def joinWithChar (sep : Char) (l : List (List Char)) : List Char :=
  List.intercalate [sep] l

/-- The result of Python `log.split("\n")`. -/
def splitLines (s : List Char) : List (List Char) :=
  splitOnChar '\n' s

/-- The first two space-separated tokens of a line, rejoined with one space:
Python `" ".join(line.split(" ")[0:2])`. -/
def twoTok (line : List Char) : List Char :=
  joinWithChar ' ' ((splitOnChar ' ' line).take 2)

/-- If the literal pattern `pat` occurs in `s`, the suffix of `s` that follows the
first occurrence; otherwise `none`. -/
def dropAfterFirst (pat : List Char) : List Char → Option (List Char)
  | [] => if pat = [] then some [] else none
  | c :: rest =>
    if pat.isPrefixOf (c :: rest) then some ((c :: rest).drop pat.length)
    else dropAfterFirst pat rest

/-- `re.search` for a pattern of the form `p₀.*p₁.*…*pₙ` where each `pᵢ` is a literal:
true iff the literals occur in `s`, in order and without overlap. -/
def seqSearch (s : List Char) : List (List Char) → Bool
  | [] => true
  | p :: ps =>
    match dropAfterFirst p s with
    | none => false
    | some rest => seqSearch rest ps

/-- Python string `<=` (lexicographic by code point). -/
def lexLe : List Char → List Char → Bool
  | [], _ => true
  | _ :: _, [] => false
  | a :: as_, b :: bs =>
    if a < b then true
    else if a = b then lexLe as_ bs
    else false

/-- Python string `<=` as a relation. -/
def LexLe (a b : List Char) : Prop := lexLe a b = true

instance : DecidableRel LexLe := fun _ _ => inferInstanceAs (Decidable (_ = true))

/-- Python `sorted` on a list of strings: the ascending lexicographic reordering.
(Any sorting algorithm yields the same list, since `LexLe` is total and
antisymmetric; insertion sort keeps the embedding kernel-reducible.) -/
def pySorted (l : List (List Char)) : List (List Char) :=
  l.insertionSort LexLe

/-- Fixed-width rendering of a number: `padW w n` is the `w` low decimal digits of
`n`, most significant first (zero-padded when `n < 10^w`). -/
def padW : Nat → Nat → List Char
  | 0, _ => []
  | w + 1, n => padW w (n / 10) ++ [Nat.digitChar (n % 10)]

/-- The time-of-year part of a well-formed klog timestamp `Immdd hh:mm:ss.ffffff`. -/
structure Stamp where
  month : Nat
  day : Nat
  hour : Nat
  minute : Nat
  second : Nat
  micro : Nat
  deriving DecidableEq, Repr

/-- The fixed-width klog rendering `Immdd hh:mm:ss.ffffff` of a stamp. -/
def renderTS (t : Stamp) : List Char :=
  'I' :: (padW 2 t.month ++ (padW 2 t.day ++ (' ' :: (padW 2 t.hour ++ (':' ::
    (padW 2 t.minute ++ (':' :: (padW 2 t.second ++ ('.' :: padW 6 t.micro)))))))))

/-- Chronological key of a stamp within one year: microseconds since a nominal
month-aligned origin (strictly monotone in the lexicographic field order). -/
def stampKey (t : Stamp) : Nat :=
  t.micro + 1000000 * (t.second + 60 * (t.minute + 60 * (t.hour + 24 * (t.day + 32 * t.month))))

/-- Chronological order on stamps (within one year). -/
def stampLe (a b : Stamp) : Prop := stampKey a ≤ stampKey b

instance : DecidableRel stampLe := fun _ _ => inferInstanceAs (Decidable (_ ≤ _))

/-! ## `datetime.strptime` with the fixed format `DATE_TIME_FORMAT = "%Y I%m%d %H:%M:%S.%f"` -/

/-- A parsed `datetime` value (the fields produced by `strptime`). -/
structure DT where
  year : Nat
  month : Nat
  day : Nat
  hour : Nat
  minute : Nat
  second : Nat
  micro : Nat
  deriving DecidableEq, Repr

/-- The numeric value of a decimal digit character, `none` on a non-digit. -/
def digit? (c : Char) : Option Nat :=
  if '0' ≤ c ∧ c ≤ '9' then some (c.toNat - 48) else none

/-- Value of a list of digit characters, most significant first. -/
def digitsToNat (l : List Char) : Nat :=
  l.foldl (fun acc c => 10 * acc + ((digit? c).getD 0)) 0

/-- The `%Y` directive: exactly four digit characters. -/
def parse4Digits : List Char → Option (Nat × List Char)
  | a :: b :: c :: d :: rest =>
    match digit? a, digit? b, digit? c, digit? d with
    | some da, some db, some dc_, some dd =>
      some (1000 * da + 100 * db + 10 * dc_ + dd, rest)
    | _, _, _, _ => none
  | _ => none

/-- The `%m` directive, regex `1[0-2]|0[1-9]|[1-9]` (first-alternative match). -/
def parseMonth : List Char → Option (Nat × List Char)
  | [] => none
  | c1 :: rest1 =>
    match digit? c1 with
    | none => none
    | some d1 =>
      match rest1 with
      | [] => if 1 ≤ d1 then some (d1, []) else none
      | c2 :: rest2 =>
        match digit? c2 with
        | none => if 1 ≤ d1 then some (d1, c2 :: rest2) else none
        | some d2 =>
          if d1 = 1 ∧ d2 ≤ 2 then some (10 + d2, rest2)
          else if d1 = 0 ∧ 1 ≤ d2 then some (d2, rest2)
          else if 1 ≤ d1 then some (d1, c2 :: rest2)
          else none

/-- The `%d` directive, regex `3[01]|[12]\d|0[1-9]|[1-9]`. -/
def parseDay : List Char → Option (Nat × List Char)
  | [] => none
  | c1 :: rest1 =>
    match digit? c1 with
    | none => none
    | some d1 =>
      match rest1 with
      | [] => if 1 ≤ d1 then some (d1, []) else none
      | c2 :: rest2 =>
        match digit? c2 with
        | none => if 1 ≤ d1 then some (d1, c2 :: rest2) else none
        | some d2 =>
          if d1 = 3 ∧ d2 ≤ 1 then some (30 + d2, rest2)
          else if (d1 = 1 ∨ d1 = 2) then some (10 * d1 + d2, rest2)
          else if d1 = 0 ∧ 1 ≤ d2 then some (d2, rest2)
          else if 1 ≤ d1 then some (d1, c2 :: rest2)
          else none

/-- The `%H` directive, regex `2[0-3]|[0-1]\d|\d`. -/
def parseHour : List Char → Option (Nat × List Char)
  | [] => none
  | c1 :: rest1 =>
    match digit? c1 with
    | none => none
    | some d1 =>
      match rest1 with
      | [] => some (d1, [])
      | c2 :: rest2 =>
        match digit? c2 with
        | none => some (d1, c2 :: rest2)
        | some d2 =>
          if d1 = 2 ∧ d2 ≤ 3 then some (20 + d2, rest2)
          else if d1 ≤ 1 then some (10 * d1 + d2, rest2)
          else some (d1, c2 :: rest2)

/-- The `%M` and `%S` directives, regex `[0-5]\d|\d`. -/
def parseMinSec : List Char → Option (Nat × List Char)
  | [] => none
  | c1 :: rest1 =>
    match digit? c1 with
    | none => none
    | some d1 =>
      match rest1 with
      | [] => some (d1, [])
      | c2 :: rest2 =>
        match digit? c2 with
        | none => some (d1, c2 :: rest2)
        | some d2 =>
          if d1 ≤ 5 then some (10 * d1 + d2, rest2)
          else some (d1, c2 :: rest2)

/-- Greedy run of at most `fuel` digits. -/
def takeDigits : Nat → List Char → (List Char × List Char)
  | 0, s => ([], s)
  | _ + 1, [] => ([], [])
  | fuel + 1, c :: rest =>
    match digit? c with
    | none => ([], c :: rest)
    | some _ =>
      let (ds, r) := takeDigits fuel rest
      (c :: ds, r)

/-- The `%f` directive, regex `[0-9]{1,6}`; the value is right-padded to microseconds. -/
def parseMicro (s : List Char) : Option (Nat × List Char) :=
  let (ds, r) := takeDigits 6 s
  if ds.isEmpty then none
  else some (digitsToNat ds * 10 ^ (6 - ds.length), r)

/-- Expect one literal character. -/
def expectChar (c : Char) : List Char → Option (List Char)
  | [] => none
  | x :: rest => if x = c then some rest else none

/-- Whether a (proleptic Gregorian) year is a leap year, as Python's `datetime` decides it. -/
def isLeap (y : Nat) : Bool :=
  (y % 4 = 0 && y % 100 ≠ 0) || y % 400 = 0

/-- Days in a month, as validated by the `datetime` constructor. -/
def daysInMonth (y m : Nat) : Nat :=
  if m = 2 then (if isLeap y then 29 else 28)
  else if m = 4 ∨ m = 6 ∨ m = 9 ∨ m = 11 then 30
  else 31

/-- Parse the part of the format after `%Y`: `" I%m%d %H:%M:%S.%f"`, requiring the whole
remaining input to be consumed. -/
def parseAfterYear (s : List Char) : Option (Nat × Nat × Nat × Nat × Nat × Nat) := do
  let s ← expectChar ' ' s
  let s ← expectChar 'I' s
  let (mo, s) ← parseMonth s
  let (da, s) ← parseDay s
  let s ← expectChar ' ' s
  let (ho, s) ← parseHour s
  let s ← expectChar ':' s
  let (mi, s) ← parseMinSec s
  let s ← expectChar ':' s
  let (se, s) ← parseMinSec s
  let s ← expectChar '.' s
  let (mc, s) ← parseMicro s
  if s.isEmpty then some (mo, da, ho, mi, se, mc) else none

/-- `datetime.strptime(s, DATE_TIME_FORMAT)` with
`DATE_TIME_FORMAT = "%Y I%m%d %H:%M:%S.%f"`; `none` models the `ValueError` raised on a
non-matching string or an out-of-range date. -/
def strptimeDTF (s : List Char) : Option DT := do
  let (y, rest) ← parse4Digits s
  let (mo, da, ho, mi, se, mc) ← parseAfterYear rest
  if 1 ≤ y ∧ da ≤ daysInMonth y mo then
    some ⟨y, mo, da, ho, mi, se, mc⟩
  else none

/-- Well-formedness of a stamp relative to year `y`: exactly the ranges accepted by
`strptime` + the `datetime` constructor for a fixed-width rendering. -/
def wfStamp (y : Nat) (t : Stamp) : Prop :=
  1 ≤ t.month ∧ t.month ≤ 12 ∧ 1 ≤ t.day ∧ t.day ≤ daysInMonth y t.month ∧
    t.hour ≤ 23 ∧ t.minute ≤ 59 ∧ t.second ≤ 59 ∧ t.micro ≤ 999999

instance (y : Nat) (t : Stamp) : Decidable (wfStamp y t) :=
  inferInstanceAs (Decidable (_ ∧ _))

/-- The `datetime` value with year `y` and the fields of stamp `t`. -/
def mkDT (y : Nat) (t : Stamp) : DT :=
  ⟨y, t.month, t.day, t.hour, t.minute, t.second, t.micro⟩

/-- `str(y)` is a four-character digit string whose value is `y` (true for every
y with four decimal digits, in particular for any current calendar year). -/
def reprIs4Digits (y : Nat) : Prop :=
  (Nat.repr y).data.length = 4 ∧ (∀ c ∈ (Nat.repr y).data, (digit? c).isSome) ∧
    digitsToNat (Nat.repr y).data = y

instance (y : Nat) : Decidable (reprIs4Digits y) :=
  inferInstanceAs (Decidable (_ ∧ _))

/-! ## `datetime` subtraction and `total_seconds()` -/

/-- Days before January 1 of year `y`, proleptic Gregorian (`datetime.toordinal` base). -/
def daysBeforeYear (y : Nat) : Nat :=
  365 * (y - 1) + (y - 1) / 4 - (y - 1) / 100 + (y - 1) / 400

/-- Days in year `y` strictly before month `m`. -/
def daysBeforeMonth (y m : Nat) : Nat :=
  (List.range (m - 1)).foldl (fun acc i => acc + daysInMonth y (i + 1)) 0

/-- `datetime.toordinal()` for the date part of a `DT`. -/
def toOrdinal (d : DT) : Nat :=
  daysBeforeYear d.year + daysBeforeMonth d.year d.month + d.day

/-- The whole `DT` as microseconds since the proleptic epoch. -/
def toMicros (d : DT) : Nat :=
  toOrdinal d * 86400000000 +
    (d.hour * 3600 + d.minute * 60 + d.second) * 1000000 + d.micro

/-- `(b - a).total_seconds()` in exact fractional seconds. -/
def totalSeconds (b a : DT) : Rat :=
  (((toMicros b : Int) - (toMicros a : Int) : Int) : Rat) / 1000000

/-! ## Log-timeline correlator functions

Each function's log text is the collaborator-supplied blob
(`pod.get_pod_logs(pod_name[0], …) + pod.get_pod_logs(pod_name[1], …)`), and the
ambient `datetime.datetime.now().year` is the explicit parameter `y`. -/

/-- Python `str.lower()` on one character (the call sites only pass ASCII statuses). -/
def lowerChar (c : Char) : Char :=
  if 'A' ≤ c ∧ c ≤ 'Z' then Char.ofNat (c.toNat + 32) else c

/-- Python `status.lower()` (ASCII; the statuses compared are `"start"`/`"end"`). -/
def pyLower (s : String) : String := ⟨s.data.map lowerChar⟩

/-- `f"{this_year} {mon_day}"` where `mon_day = " ".join(line.split(" ")[0:2])`. -/
def statLine (y : Nat) (line : List Char) : List Char :=
  (Nat.repr y).data ++ ' ' :: twoTok line

/-- The regex `f"provision.*{name}.*{operation}"` as a literal sequence. -/
def provisionPat (name operation : String) : List (List Char) :=
  ["provision".data, name.data, operation.data]

/-- The `pvc_name` argument of `get_provision_time`: either one PVC name (`str`) or a
list of PVC objects, represented by their `.name` fields. -/
inductive PvcArg where
  | single (name : String)
  | multi (names : List String)

/-- `get_provision_time(interface, pvc_name, status)`: starting/ending creation time of
PVC(s) from provisioner logs. -/
def get_provision_time (logs : String) (pvc_name : PvcArg) (status : String) (y : Nat) :
    Except Exc DT :=
  let operation := if pyLower status = "end" then "succeeded" else "started"
  let lines := splitLines logs.data
  let statStr : Except Exc (List Char) :=
    match pvc_name with
    | .single name =>
      let stat := lines.filter (fun l => seqSearch l (provisionPat name operation))
      match stat.head? with
      | none => .error .indexError
      | some l => .ok (statLine y l)
    | .multi names =>
      match names.mapM (fun n =>
          let stat := lines.filter (fun l => seqSearch l (provisionPat n operation))
          match stat.head? with
          | none => Except.error Exc.indexError
          | some l => Except.ok (statLine y l)) with
      | .error e => .error e
      | .ok all_stats =>
        let sorted := pySorted all_stats
        if pyLower status = "end" then
          match sorted.getLast? with
          | none => .error .indexError
          | some s => .ok s
        else if pyLower status = "start" then
          match sorted.head? with
          | none => .error .indexError
          | some s => .ok s
        else
          -- for any other status the Python variable `stat` is left over from the
          -- loop body (the last name's value), or unbound when the list is empty
          match all_stats.getLast? with
          | none => .error .unboundLocal
          | some s => .ok s
  match statStr with
  | .error e => .error e
  | .ok s =>
    match strptimeDTF s with
    | some dt => .ok dt
    | none => .error .valueError

/-- `get_start_creation_time(interface, pvc_name)`: time of the first
`provision.*{pvc_name}.*started` line. -/
def get_start_creation_time (logs : String) (pvc_name : String) (y : Nat) :
    Except Exc DT :=
  let lines := splitLines logs.data
  let start := lines.filter (fun l => seqSearch l (provisionPat pvc_name "started"))
  match start.head? with
  | none => .error .indexError
  | some l =>
    match strptimeDTF (statLine y l) with
    | some dt => .ok dt
    | none => .error .valueError

/-- `get_end_creation_time(interface, pvc_name)`: time of the last
`provision.*{pvc_name}.*succeeded` line. -/
def get_end_creation_time (logs : String) (pvc_name : String) (y : Nat) :
    Except Exc DT :=
  let lines := splitLines logs.data
  let endLines := lines.filter (fun l => seqSearch l (provisionPat pvc_name "succeeded"))
  match endLines.getLast? with
  | none => .error .indexError
  | some l =>
    match strptimeDTF (statLine y l) with
    | some dt => .ok dt
    | none => .error .valueError

/-- `measure_pvc_creation_time(interface, pvc_name)`: end minus start in seconds. -/
def measure_pvc_creation_time (logs : String) (pvc_name : String) (y : Nat) :
    Except Exc Rat := do
  let start ← get_start_creation_time logs pvc_name y
  let end_ ← get_end_creation_time logs pvc_name y
  return totalSeconds end_ start

/-- Inner `get_pattern_time(log, snapname, pattern)` of `get_snapshot_time`: the
reconstructed `f"{this_year} {mon_day}"` of the first line matching both the snapshot
name and the pattern, else `None`. -/
def get_pattern_time (log : List (List Char)) (snapname : String) (pattern : String)
    (y : Nat) : Option (List Char) :=
  match log.find? (fun line =>
      seqSearch line [snapname.data] && seqSearch line [pattern.data]) with
  | some line => some (statLine y line)
  | none => none

/-- The `snap_name` argument of `get_snapshot_time`: one name (`str`) or a list of
objects represented by their `.name` fields. -/
inductive SnapArg where
  | single (name : String)
  | multi (names : List String)

/-- `if stat: return strptime(stat) else: return None` tail of `get_snapshot_time`. -/
def snapFinish (stat : Option (List Char)) : Except Exc (Option DT) :=
  match stat with
  | none => .ok none
  | some s =>
    if s.isEmpty then .ok none
    else
      match strptimeDTF s with
      | some dt => .ok (some dt)
      | none => .error .valueError

/-- The single/multi dispatch of `get_snapshot_time` on already-fetched log lines.
`pickLast` is true for `status == "end"` (`all_stats[-1]`), false for `"start"`
(`all_stats[0]`). Python `sorted` raises `TypeError` when a `None` entry of a
multi-element list gets compared. -/
def snapStat (log : List (List Char)) (snap_name : SnapArg) (pattern : String) (y : Nat)
    (pickLast : Bool) : Except Exc (Option DT) :=
  match snap_name with
  | .single s => snapFinish (get_pattern_time log s pattern y)
  | .multi names =>
    let all_stats := names.map (fun n => get_pattern_time log n pattern y)
    if all_stats.length ≤ 1 then
      match (if pickLast then all_stats.getLast? else all_stats.head?) with
      | none => .error .indexError
      | some stat => snapFinish stat
    else if all_stats.any (fun o => o.isNone) then .error .typeError
    else
      let sorted := (pySorted (all_stats.map (fun o => o.getD []))).map some
      match (if pickLast then sorted.getLast? else sorted.head?) with
      | none => .error .indexError
      | some stat => snapFinish stat

/-- `get_snapshot_time(interface, snap_name, status)`: start times come from the
snapshot-controller log, end times from the csi-snapshotter logs; an invalid status
returns `None`. -/
def get_snapshot_time (startLogs endLogs : String) (snap_name : SnapArg)
    (status : String) (y : Nat) : Except Exc (Option DT) :=
  if pyLower status = "start" then
    snapStat (splitLines startLogs.data) snap_name "Creating content for snapshot" y false
  else if pyLower status = "end" then
    snapStat (splitLines endLogs.data) snap_name "readyToUse true" y true
  else .ok none

/-! ## Bulk timing with bounded log re-fetching -/

/-- The subjects that still lack a start or an end line in the current logs
(the loop body building `no_data_list`). -/
def bulkNoData (lines : List (List Char)) (patS patE : String → List (List Char))
    (names : List String) : List String :=
  names.filter (fun n =>
    (lines.filter (fun l => seqSearch l (patS n))).isEmpty ||
    (lines.filter (fun l => seqSearch l (patE n))).isEmpty)

/-- The `while True` re-fetch loop shared by `measure_pvc_creation_time_bulk` and
`measure_pv_deletion_time_bulk`: while a subject lacks data, re-fetch the logs and
increment `loop_counter`; once `loop_counter` reaches 6 — that is, right after the
sixth re-fetch — raise `UnexpectedBehaviour` naming the subjects without data.
`fetches k` is the collaborator log text obtained by the `k`-th fetch (`k = 0`
initial, `k ≥ 1` re-fetches); `fuel = 5 - loop_counter` counts the iterations that
may still `continue`, and `idx` is the number of fetches already performed. -/
def bulkLoop (fetches : Nat → String) (patS patE : String → List (List Char))
    (names : List String) : Nat → Nat → List (List Char) →
    Except Exc (List (List Char))
  | fuel, idx, lines =>
    let nodata := bulkNoData lines patS patE names
    if nodata.isEmpty then .ok lines
    else
      let lines' := splitLines (fetches (idx + 1)).data
      match fuel with
      | 0 => .error (.unexpectedBehaviour nodata)
      | fuel' + 1 => bulkLoop fetches patS patE names fuel' (idx + 1) lines'

/-- Start pattern of `measure_pvc_creation_time_bulk`. -/
def pvcBulkPatS (n : String) : List (List Char) := provisionPat n "started"

/-- End pattern of `measure_pvc_creation_time_bulk`. -/
def pvcBulkPatE (n : String) : List (List Char) := provisionPat n "succeeded"

/-- `measure_pvc_creation_time_bulk(interface, pvc_name_list)`: dictionary (as an
association list) of PVC name to creation seconds, after the bounded re-fetch loop. -/
def measure_pvc_creation_time_bulk (fetches : Nat → String) (pvc_name_list : List String)
    (y : Nat) : Except Exc (List (String × Rat)) := do
  let lines ← bulkLoop fetches pvcBulkPatS pvcBulkPatE pvc_name_list 5 0
    (splitLines (fetches 0).data)
  pvc_name_list.mapM (fun n =>
    match (lines.filter (fun l => seqSearch l (pvcBulkPatS n))).head? with
    | none => Except.error Exc.indexError
    | some ls =>
      match (lines.filter (fun l => seqSearch l (pvcBulkPatE n))).head? with
      | none => Except.error Exc.indexError
      | some le_ =>
        match strptimeDTF (statLine y ls), strptimeDTF (statLine y le_) with
        | some st, some en => Except.ok (n, totalSeconds en st)
        | _, _ => Except.error Exc.valueError)

/-- Start pattern of `measure_pv_deletion_time_bulk`: the single literal
`f'delete "{pv}": started'`. -/
def pvBulkPatS (n : String) : List (List Char) :=
  [("delete \"" ++ n ++ "\": started").data]

/-- End pattern of `measure_pv_deletion_time_bulk`: the single literal
`f'delete "{pv}": succeeded'`. -/
def pvBulkPatE (n : String) : List (List Char) :=
  [("delete \"" ++ n ++ "\": succeeded").data]

/-- `measure_pv_deletion_time_bulk(interface, pv_name_list)`: dictionary of PV name to
deletion seconds, after the bounded re-fetch loop. -/
def measure_pv_deletion_time_bulk (fetches : Nat → String) (pv_name_list : List String)
    (y : Nat) : Except Exc (List (String × Rat)) := do
  let lines ← bulkLoop fetches pvBulkPatS pvBulkPatE pv_name_list 5 0
    (splitLines (fetches 0).data)
  pv_name_list.mapM (fun n =>
    match (lines.filter (fun l => seqSearch l (pvBulkPatS n))).head? with
    | none => Except.error Exc.indexError
    | some ls =>
      match (lines.filter (fun l => seqSearch l (pvBulkPatE n))).head? with
      | none => Except.error Exc.indexError
      | some le_ =>
        match strptimeDTF (statLine y ls), strptimeDTF (statLine y le_) with
        | some st, some en => Except.ok (n, totalSeconds en st)
        | _, _ => Except.error Exc.valueError)

/-! ## State waiter and batch orchestration

Collaborator calls are recorded in an event trace; collaborator outcomes are
explicit behaviour fields of the resource handle. -/

/-- Modelled from the spec: `constants.DEFAULT_STORAGECLASS_CEPHFS`, the
platform-defaulted CephFS storage-class name (the constant's definition lives outside
this repository slice; only its role as a designated immutable resource name matters). -/
def DEFAULT_STORAGECLASS_CEPHFS : String := "ocs-storagecluster-cephfs"

/-- Modelled from the spec: `constants.DEFAULT_STORAGECLASS_RBD`, the
platform-defaulted RBD storage-class name. -/
def DEFAULT_STORAGECLASS_RBD : String := "ocs-storagecluster-ceph-rbd"

/-- A Python value observable by the batch join lists: `None`, a `bool`, or a created
pod object (identified by name). -/
inductive PyVal where
  | noneV
  | boolV (b : Bool)
  | podV (name : String)
  deriving DecidableEq, Repr

/-- A collaborator call performed by the embedded code. -/
inductive Ev where
  | waitForResource (condition : String) (resourceName : String) (timeout : Nat)
  | reload (name : String)
  | describe (name : String)
  | createPvcs (mode : String)
  | createPod (pvcName : String)
  | deleteAttempt (name : String) (failure : Option Exc)
  deriving DecidableEq, Repr

/-- A resource handle together with the behaviour of its collaborators:
`ocp.wait_for_resource`, `reload`, `describe` and `delete`. -/
structure Res where
  name : String
  kind : String
  waitResult : String → Nat → Except Exc Unit
  reloadResult : Except Exc Unit
  describeText : String
  deleteResult : Except Exc Unit

/-- `wait_for_resource_state(resource, state, timeout)`: immutable default
storage-class names short-circuit; otherwise wait, and on `TimeoutExpiredError`
reload the resource and raise `ResourceWrongStatusException` with its description.
Returns the Python return value (always `None`) and the trace of collaborator calls. -/
def wait_for_resource_state (resource : Res) (state : String) (timeout : Nat) :
    Except Exc PyVal × List Ev :=
  if resource.name = DEFAULT_STORAGECLASS_CEPHFS ∨
      resource.name = DEFAULT_STORAGECLASS_RBD then
    (.ok .noneV, [])
  else
    match resource.waitResult state timeout with
    | .ok _ => (.ok .noneV, [.waitForResource state resource.name timeout])
    | .error .timeoutExpired =>
      match resource.reloadResult with
      | .ok _ =>
        (.error (.resourceWrongStatus resource.name resource.describeText),
         [.waitForResource state resource.name timeout, .reload resource.name,
          .describe resource.name])
      | .error e' =>
        (.error e',
         [.waitForResource state resource.name timeout, .reload resource.name])
    | .error e => (.error e, [.waitForResource state resource.name timeout])

/-- `converge_lists(list_to_converge)`: flatten one level. -/
def converge_lists (l : List (List α)) : List α := l.flatten

/-- `create_multiple_pvc_parallel(sc_obj, namespace, number_of_pvc, size, access_modes)`:
one `create_multiple_pvcs` worker per access mode (collaborator outcome
`createResult mode`), join, flatten, then one `wait_for_resource_state(obj, "Bound", 90)`
worker per created PVC, join; a worker exception re-raises at its join; if `False` is
among the join results raise `TimeoutExpiredError`. -/
def create_multiple_pvc_parallel (createResult : String → Except Exc (List Res))
    (access_modes : List String) : Except Exc (List Res) × List Ev :=
  let createEvs := access_modes.map Ev.createPvcs
  match access_modes.mapM createResult with
  | .error e => (.error e, createEvs)
  | .ok result_list =>
    let pvc_objs_list := converge_lists result_list
    let waitRuns := pvc_objs_list.map (fun o => wait_for_resource_state o "Bound" 90)
    let waitEvs := (waitRuns.map Prod.snd).flatten
    match (waitRuns.map Prod.fst).mapM id with
    | .error e => (.error e, createEvs ++ waitEvs)
    | .ok results =>
      if PyVal.boolV false ∈ results then (.error .timeoutExpired, createEvs ++ waitEvs)
      else (.ok pvc_objs_list, createEvs ++ waitEvs)

/-- `create_pods_parallel(pvc_list, namespace, interface, …)`: one `create_pod` worker
per PVC (collaborator outcome `createPod pvcName`), join, then one
`wait_for_resource_state(obj, "Running", 300)` worker per pod appended to the same
futures list, join over the whole list (pod objects from the first wave, then wait
results); if `False` is among the join results raise `TimeoutExpiredError`. -/
def create_pods_parallel (pvc_list : List Res) (createPod : String → Except Exc Res) :
    Except Exc (List Res) × List Ev :=
  let createEvs := pvc_list.map (fun p => Ev.createPod p.name)
  match pvc_list.mapM (fun p => createPod p.name) with
  | .error e => (.error e, createEvs)
  | .ok pod_objs =>
    let waitRuns := pod_objs.map (fun o => wait_for_resource_state o "Running" 300)
    let waitEvs := (waitRuns.map Prod.snd).flatten
    match (waitRuns.map Prod.fst).mapM id with
    | .error e => (.error e, createEvs ++ waitEvs)
    | .ok waitResults =>
      let joined := pod_objs.map (fun o => PyVal.podV o.name) ++ waitResults
      if PyVal.boolV false ∈ joined then (.error .timeoutExpired, createEvs ++ waitEvs)
      else (.ok pod_objs, createEvs ++ waitEvs)

/-- `delete_objs_parallel(obj_list)`: start one `threading.Thread` per object running
`obj.delete()`, join them all, return `True`. A worker's exception is swallowed by the
thread machinery (recorded here in the trace), never re-raised by `join()`. -/
def delete_objs_parallel (obj_list : List Res) : Bool × List Ev :=
  (true, obj_list.map (fun o =>
    Ev.deleteAttempt o.name
      (match o.deleteResult with | .ok _ => none | .error e => some e)))

/-! ## Unique resource names -/

/-- `create_unique_resource_name(resource_description, resource_type)` on character
lists; the random `uuid4().hex` suffix is the explicit parameter `uuid_hex`. -/
def create_unique_resource_name (resource_description resource_type uuid_hex : List Char) :
    List Char :=
  let name := resource_type ++ '-' :: resource_description.take 23 ++ '-' :: uuid_hex
  if name.length < 40 then name else name.take 40

/-- Whether an event is a deletion attempt on a resource. -/
def isDeleteEv : Ev → Bool
  | .deleteAttempt _ _ => true
  | _ => false

/-- No event of the trace deletes a resource. -/
def noDeleteEv (tr : List Ev) : Prop :=
  tr.all (fun ev => !(isDeleteEv ev)) = true

/-! ## Concrete inputs used by the claim theorems -/

/-- A two-line provisioner log in the `"Jan  5 …"` shape the spec describes. -/
def logJan : String :=
  "Jan  5 10:00:00.000000 1 controller.go:1279] provision \"ns/pvc-a\" class \"sc\": started\nJan  5 10:00:05.000000 1 controller.go:1280] provision \"ns/pvc-a\" class \"sc\": succeeded"

/-- First line of the klog-shaped provisioner log: provisioning of `pvc-a` started. -/
def klogStartLine : String :=
  "I0105 10:00:00.000000 1 controller.go:1279] provision \"ns/pvc-a\" class \"sc\": started"

/-- Second line of the klog-shaped provisioner log: provisioning of `pvc-a` succeeded. -/
def klogEndLine : String :=
  "I0105 10:00:05.000000 1 controller.go:1280] provision \"ns/pvc-a\" class \"sc\": succeeded"

/-- The same two-line provisioner log in the klog shape the code actually parses. -/
def logKlog : String := klogStartLine ++ "\n" ++ klogEndLine

/-- Batch log, line 1: `pvc-a5` provisioning started at 10:00:00. -/
def batchL1 : String :=
  "I0105 10:00:00.000000 1 ctl] provision \"ns/pvc-a5\" class \"sc\": started"

/-- Batch log, line 2: `pvc-b5` provisioning started at 10:00:01. -/
def batchL2 : String :=
  "I0105 10:00:01.000000 1 ctl] provision \"ns/pvc-b5\" class \"sc\": started"

/-- Batch log, line 3: `pvc-a5` provisioning succeeded at 10:00:02. -/
def batchL3 : String :=
  "I0105 10:00:02.000000 1 ctl] provision \"ns/pvc-a5\" class \"sc\": succeeded"

/-- Batch log, line 4: `pvc-b5` provisioning succeeded at 10:00:05. -/
def batchL4 : String :=
  "I0105 10:00:05.000000 1 ctl] provision \"ns/pvc-b5\" class \"sc\": succeeded"

/-- Batch log for subjects `pvc-a5` (start 10:00:00, end 10:00:02) and `pvc-b5`
(start 10:00:01, end 10:00:05). -/
def logBatch : String :=
  batchL1 ++ "\n" ++ batchL2 ++ "\n" ++ batchL3 ++ "\n" ++ batchL4

/-- The start stamps of the two batch subjects. -/
def c5StartStamp : String → Stamp :=
  fun n => if n = "pvc-a5" then ⟨1, 5, 10, 0, 0, 0⟩ else ⟨1, 5, 10, 0, 1, 0⟩

/-- The end stamps of the two batch subjects. -/
def c5EndStamp : String → Stamp :=
  fun n => if n = "pvc-a5" then ⟨1, 5, 10, 0, 2, 0⟩ else ⟨1, 5, 10, 0, 5, 0⟩

/-- The unique `started` log line of each batch subject. -/
def c5StartLine : String → List Char :=
  fun n => if n = "pvc-a5" then batchL1.data else batchL2.data

/-- The unique `succeeded` log line of each batch subject. -/
def c5EndLine : String → List Char :=
  fun n => if n = "pvc-a5" then batchL3.data else batchL4.data

/-- A log in which subject `pvc-b` has a `started` line (10:00:00) and two
`succeeded` lines (10:00:05 and 10:00:09). -/
def logStartTwoEnd : String :=
  "I0105 10:00:00.000000 1 ctl] provision \"ns/pvc-b\" class \"sc\": started\nI0105 10:00:05.000000 1 ctl] provision \"ns/pvc-b\" class \"sc\": succeeded\nI0105 10:00:09.000000 1 ctl] provision \"ns/pvc-b\" class \"sc\": succeeded"

/-- A log in which subject `pvc-c`'s `succeeded` marker appears twice (10:00:01 and
10:00:07). -/
def logTwoSucceededC : String :=
  "I0105 10:00:01.000000 1 ctl] provision \"ns/pvc-c\" class \"sc\": succeeded\nI0105 10:00:07.000000 1 ctl] provision \"ns/pvc-c\" class \"sc\": succeeded"

/-- A one-`succeeded` log for subject `pvc-d`. -/
def logOneSucceeded : String :=
  "I0105 10:00:04.000000 1 ctl] provision \"ns/pvc-d\" class \"sc\": succeeded"

/-- A log with start and end lines for `pvc-c8`. -/
def logC8pvc : String :=
  "I0105 10:00:00.000000 1 ctl] provision \"ns/pvc-c8\" class \"sc\": started\nI0105 10:00:03.000000 1 ctl] provision \"ns/pvc-c8\" class \"sc\": succeeded"

/-- A log with deletion start and end lines for `pv-c8`. -/
def logC8pv : String :=
  "I0105 10:00:00.000000 1 ctl] delete \"pv-c8\": started\nI0105 10:00:04.000000 1 ctl] delete \"pv-c8\": succeeded"

/-- A fetch stream whose every fetch has no relevant content. -/
def fetchEmpty : Nat → String := fun _ => "no relevant content"

/-- A fetch stream that only has data from the seventh re-fetch on (index ≥ 7),
agreeing with `fetchEmpty` on all fetches the bulk loop can perform. -/
def fetchLate : Nat → String :=
  fun i => if i ≤ 6 then "no relevant content" else logC8pvc

/-- A fetch stream with PVC creation data from the start. -/
def fetchPvcData : Nat → String := fun _ => logC8pvc

/-- A fetch stream with PV deletion data from the start. -/
def fetchPvData : Nat → String := fun _ => logC8pv

/-- A PVC whose state-wait succeeds. -/
def pvcOkC2 : Res :=
  ⟨"pvc-ok", "PersistentVolumeClaim", fun _ _ => .ok (), .ok (), "ok-desc", .ok ()⟩

/-- A PVC whose state-wait times out (and whose diagnostic reload succeeds). -/
def pvcBadC2 : Res :=
  ⟨"pvc-bad", "PersistentVolumeClaim", fun _ _ => .error .timeoutExpired, .ok (),
    "bad-desc", .ok ()⟩

/-- A creation collaborator that successfully creates `[pvcOkC2, pvcBadC2]` for any
access mode. -/
def createResultC2 : String → Except Exc (List Res) := fun _ => .ok [pvcOkC2, pvcBadC2]

/-- A resource whose wait times out and whose diagnostic reload itself raises. -/
def resReloadFails : Res :=
  ⟨"res-c3", "Pod", fun _ _ => .error .timeoutExpired,
    .error (.commandFailed "reload boom"), "c3-desc", .ok ()⟩

/-- A resource whose wait times out and whose diagnostic reload succeeds. -/
def resReloadOk : Res :=
  ⟨"res-c3w", "Pod", fun _ _ => .error .timeoutExpired, .ok (), "c3w-desc", .ok ()⟩

/-- A resource carrying the default CephFS storage-class name; its probe would
time out if it were ever invoked. -/
def resDefault : Res :=
  ⟨DEFAULT_STORAGECLASS_CEPHFS, "StorageClass", fun _ _ => .error .timeoutExpired,
    .ok (), "sc-desc", .ok ()⟩

/-- An object whose `delete()` raises. -/
def objDeleteFails : Res :=
  ⟨"obj-c9", "Pod", fun _ _ => .ok (), .ok (), "d", .error (.commandFailed "delete boom")⟩

/-- A pod object whose `Running` state-wait times out (diagnostic reload succeeds). -/
def podObjC2 : Res :=
  ⟨"pod-bad", "Pod", fun _ _ => .error .timeoutExpired, .ok (), "pod-desc", .ok ()⟩

/-- A pod-creation collaborator that successfully creates `podObjC2` for any PVC. -/
def createPodC2 : String → Except Exc Res := fun _ => .ok podObjC2

/-- A 40-character resource type. -/
def typeA40 : List Char := List.replicate 40 'a'

/-- A 32-character uuid hex suffix. -/
def uuid32 : List Char := List.replicate 32 'f'

/-! ## Lemmas: the lexicographic string order used by Python `sorted` -/

theorem lexLe_refl (l : List Char) : lexLe l l = true := by
  induction l with
  | nil => rfl
  | cons c t ih => simp [lexLe, ih]

theorem lexLe_total : ∀ a b : List Char, lexLe a b = true ∨ lexLe b a = true
  | [], _ => Or.inl rfl
  | _ :: _, [] => Or.inr rfl
  | x :: xs, y :: ys => by
    rcases lt_trichotomy x y with h | h | h
    · left; simp [lexLe, h]
    · subst h
      rcases lexLe_total xs ys with h' | h'
      · left; simp [lexLe, h']
      · right; simp [lexLe, h']
    · right; simp [lexLe, h]

theorem lexLe_trans : ∀ a b c : List Char,
    lexLe a b = true → lexLe b c = true → lexLe a c = true
  | [], _, _, _, _ => rfl
  | _ :: _, [], _, h1, _ => by simp [lexLe] at h1
  | _ :: _, _ :: _, [], _, h2 => by simp [lexLe] at h2
  | x :: xs, y :: ys, z :: zs, h1, h2 => by
    simp only [lexLe] at h1 h2 ⊢
    by_cases hxy : x < y
    · by_cases hyz : y < z
      · simp [lt_trans hxy hyz]
      · rw [if_neg hyz] at h2
        by_cases hyz' : y = z
        · subst hyz'; simp [hxy]
        · rw [if_neg hyz'] at h2; exact absurd h2 (by simp)
    · rw [if_neg hxy] at h1
      by_cases hxy' : x = y
      · subst hxy'
        rw [if_pos rfl] at h1
        by_cases hxz : x < z
        · simp [hxz]
        · rw [if_neg hxz] at h2 ⊢
          by_cases hxz' : x = z
          · rw [if_pos hxz'] at h2 ⊢; exact lexLe_trans xs ys zs h1 h2
          · rw [if_neg hxz'] at h2; exact absurd h2 (by simp)
      · rw [if_neg hxy'] at h1; exact absurd h1 (by simp)

instance : IsTotal (List Char) LexLe := ⟨fun a b => lexLe_total a b⟩

instance : IsTrans (List Char) LexLe := ⟨fun a b c => lexLe_trans a b c⟩

instance : IsRefl (List Char) LexLe := ⟨fun l => lexLe_refl l⟩

theorem pySorted_perm (l : List (List Char)) : List.Perm (pySorted l) l :=
  List.perm_insertionSort LexLe l

theorem pySorted_sorted (l : List (List Char)) : (pySorted l).Sorted LexLe :=
  List.sorted_insertionSort LexLe l

theorem sorted_head_le {l : List (List Char)} {h : List Char}
    (hs : l.Sorted LexLe) (hh : l.head? = some h) : ∀ a ∈ l, LexLe h a := by
  cases l with
  | nil => cases hh
  | cons x t =>
    cases hh
    intro a ha
    rcases List.mem_cons.mp ha with rfl | ha
    · exact lexLe_refl a
    · exact (List.sorted_cons.mp hs).1 a ha

theorem sorted_le_getLast : ∀ {l : List (List Char)} {m : List Char},
    l.Sorted LexLe → l.getLast? = some m → ∀ a ∈ l, LexLe a m
  | [], _, _, hm => by cases hm
  | [x], m, _, hm => by
    intro a ha
    rcases List.mem_singleton.mp ha with rfl
    simp only [List.getLast?_singleton, Option.some.injEq] at hm
    subst hm
    exact lexLe_refl a
  | x :: y :: ts, m, hs, hm => by
    rw [List.getLast?_cons_cons] at hm
    have hx := (List.sorted_cons.mp hs).1
    have hst := (List.sorted_cons.mp hs).2
    intro a ha
    rcases List.mem_cons.mp ha with rfl | ha
    · exact hx m (List.mem_of_getLast?_eq_some hm)
    · exact sorted_le_getLast hst hm a ha

/-! ## Lemmas: fixed-width digit rendering versus parsing and ordering -/

theorem digit?_digitChar {k : Nat} (hk : k ≤ 9) : digit? (Nat.digitChar k) = some k := by
  interval_cases k <;> decide

theorem digitChar_lt_iff {k j : Nat} (hk : k ≤ 9) (hj : j ≤ 9) :
    Nat.digitChar k < Nat.digitChar j ↔ k < j := by
  interval_cases k <;> interval_cases j <;> decide

theorem digitChar_eq_iff {k j : Nat} (hk : k ≤ 9) (hj : j ≤ 9) :
    Nat.digitChar k = Nat.digitChar j ↔ k = j := by
  interval_cases k <;> interval_cases j <;> decide

theorem lexLe_cons_same (c : Char) (x y : List Char) :
    lexLe (c :: x) (c :: y) = lexLe x y := by
  rw [lexLe]
  rw [if_neg (lt_irrefl c), if_pos rfl]

theorem lexLe_append_same (p x y : List Char) :
    lexLe (p ++ x) (p ++ y) = lexLe x y := by
  induction p with
  | nil => rfl
  | cons c t ih => simpa [lexLe_cons_same] using ih

theorem padLexLe : ∀ (w a b : Nat) (r s : List Char), a < 10 ^ w → b < 10 ^ w →
    lexLe (padW w a ++ r) (padW w b ++ s) =
      if a < b then true else if a = b then lexLe r s else false
  | 0, a, b, r, s, ha, hb => by
    interval_cases a
    interval_cases b
    simp [padW]
  | w + 1, a, b, r, s, ha, hb => by
    have ha' : a / 10 < 10 ^ w := by
      rw [Nat.div_lt_iff_lt_mul (by norm_num)]
      calc a < 10 ^ (w + 1) := ha
        _ = 10 ^ w * 10 := by ring
    have hb' : b / 10 < 10 ^ w := by
      rw [Nat.div_lt_iff_lt_mul (by norm_num)]
      calc b < 10 ^ (w + 1) := hb
        _ = 10 ^ w * 10 := by ring
    rw [padW, padW, List.append_assoc, List.append_assoc,
      padLexLe w (a / 10) (b / 10) _ _ ha' hb']
    have hma : a % 10 ≤ 9 := by omega
    have hmb : b % 10 ≤ 9 := by omega
    simp only [List.singleton_append, lexLe]
    simp only [digitChar_lt_iff hma hmb, digitChar_eq_iff hma hmb]
    split_ifs <;> first | rfl | omega

theorem padW_two (n : Nat) :
    padW 2 n = [Nat.digitChar (n / 10 % 10), Nat.digitChar (n % 10)] := by
  simp [padW]

theorem padW_length (w n : Nat) : (padW w n).length = w := by
  induction w generalizing n with
  | zero => rfl
  | succ w ih => simp [padW, ih]

theorem padW_digits : ∀ (w n : Nat), ∀ c ∈ padW w n, (digit? c).isSome
  | 0, _, c, hc => by cases hc
  | w + 1, n, c, hc => by
    rw [padW] at hc
    rcases List.mem_append.mp hc with h | h
    · exact padW_digits w (n / 10) c h
    · rcases List.mem_singleton.mp h with rfl
      rw [digit?_digitChar (by omega)]
      rfl

theorem digitsToNat_append_singleton (l : List Char) (c : Char) :
    digitsToNat (l ++ [c]) = 10 * digitsToNat l + (digit? c).getD 0 := by
  simp [digitsToNat, List.foldl_append]

theorem digitsToNat_padW : ∀ (w n : Nat), n < 10 ^ w → digitsToNat (padW w n) = n
  | 0, n, h => by
    interval_cases n
    rfl
  | w + 1, n, h => by
    have h' : n / 10 < 10 ^ w := by
      rw [Nat.div_lt_iff_lt_mul (by norm_num)]
      calc n < 10 ^ (w + 1) := h
        _ = 10 ^ w * 10 := by ring
    rw [padW, digitsToNat_append_singleton, digitsToNat_padW w (n / 10) h',
      digit?_digitChar (show n % 10 ≤ 9 by omega)]
    simp
    omega

theorem parseMonth_padW {m : Nat} (r : List Char) (h1 : 1 ≤ m) (h2 : m ≤ 12) :
    parseMonth (padW 2 m ++ r) = some (m, r) := by
  rw [padW_two, List.cons_append, List.cons_append, List.nil_append, parseMonth]
  simp only [digit?_digitChar (show m / 10 % 10 ≤ 9 by omega),
    digit?_digitChar (show m % 10 ≤ 9 by omega)]
  split_ifs <;>
    first
    | (simp only [Option.some.injEq, Prod.mk.injEq, and_true]; omega)
    | (exfalso; omega)

theorem parseDay_padW {d : Nat} (r : List Char) (h1 : 1 ≤ d) (h2 : d ≤ 31) :
    parseDay (padW 2 d ++ r) = some (d, r) := by
  rw [padW_two, List.cons_append, List.cons_append, List.nil_append, parseDay]
  simp only [digit?_digitChar (show d / 10 % 10 ≤ 9 by omega),
    digit?_digitChar (show d % 10 ≤ 9 by omega)]
  split_ifs <;>
    first
    | (simp only [Option.some.injEq, Prod.mk.injEq, and_true]; omega)
    | (exfalso; omega)

theorem parseHour_padW {h : Nat} (r : List Char) (h2 : h ≤ 23) :
    parseHour (padW 2 h ++ r) = some (h, r) := by
  rw [padW_two, List.cons_append, List.cons_append, List.nil_append, parseHour]
  simp only [digit?_digitChar (show h / 10 % 10 ≤ 9 by omega),
    digit?_digitChar (show h % 10 ≤ 9 by omega)]
  split_ifs <;>
    first
    | (simp only [Option.some.injEq, Prod.mk.injEq, and_true]; omega)
    | (exfalso; omega)

theorem parseMinSec_padW {n : Nat} (r : List Char) (h2 : n ≤ 59) :
    parseMinSec (padW 2 n ++ r) = some (n, r) := by
  rw [padW_two, List.cons_append, List.cons_append, List.nil_append, parseMinSec]
  simp only [digit?_digitChar (show n / 10 % 10 ≤ 9 by omega),
    digit?_digitChar (show n % 10 ≤ 9 by omega)]
  split_ifs <;>
    first
    | (simp only [Option.some.injEq, Prod.mk.injEq, and_true]; omega)
    | (exfalso; omega)

theorem takeDigits_exact : ∀ (ds : List Char), (∀ c ∈ ds, (digit? c).isSome) →
    takeDigits ds.length ds = (ds, [])
  | [], _ => rfl
  | c :: t, h => by
    rw [List.length_cons, takeDigits]
    have hc := h c (by simp)
    rcases Option.isSome_iff_exists.mp hc with ⟨v, hv⟩
    rw [hv]
    rw [takeDigits_exact t (fun c hc => h c (by simp [hc]))]

theorem parseMicro_padW {mc : Nat} (h : mc ≤ 999999) :
    parseMicro (padW 6 mc) = some (mc, []) := by
  rw [parseMicro]
  have h6 : (padW 6 mc).length = 6 := padW_length 6 mc
  have ht : takeDigits 6 (padW 6 mc) = (padW 6 mc, []) := by
    rw [← h6]
    exact takeDigits_exact _ (padW_digits 6 mc)
  rw [ht]
  simp only [h6]
  rw [digitsToNat_padW 6 mc (by norm_num; omega)]
  have : ¬ (padW 6 mc).isEmpty = true := by
    rw [List.isEmpty_iff_length_eq_zero, h6]
    omega
  simp [this]

theorem parse4Digits_append {yd : List Char} (r : List Char) (h4 : yd.length = 4)
    (hd : ∀ c ∈ yd, (digit? c).isSome) :
    parse4Digits (yd ++ r) = some (digitsToNat yd, r) := by
  match yd, h4 with
  | [a, b, c, d], _ =>
    rcases Option.isSome_iff_exists.mp (hd a (by simp)) with ⟨va, hva⟩
    rcases Option.isSome_iff_exists.mp (hd b (by simp)) with ⟨vb, hvb⟩
    rcases Option.isSome_iff_exists.mp (hd c (by simp)) with ⟨vc, hvc⟩
    rcases Option.isSome_iff_exists.mp (hd d (by simp)) with ⟨vd, hvd⟩
    simp only [List.cons_append, List.nil_append, parse4Digits, hva, hvb, hvc, hvd]
    simp only [digitsToNat, List.foldl, hva, hvb, hvc, hvd, Option.getD_some]
    congr 1
    congr 1
    ring

theorem daysInMonth_le (y m : Nat) : daysInMonth y m ≤ 31 := by
  rw [daysInMonth]
  split_ifs <;> first | omega | (split_ifs <;> omega)

theorem expectChar_cons_self (c : Char) (r : List Char) :
    expectChar c (c :: r) = some r := by
  simp [expectChar]

theorem parseAfterYear_render {y : Nat} (t : Stamp) (ht : wfStamp y t) :
    parseAfterYear (' ' :: renderTS t) =
      some (t.month, t.day, t.hour, t.minute, t.second, t.micro) := by
  obtain ⟨h1, h2, h3, h4, h5, h6, h7, h8⟩ := ht
  have h4' : t.day ≤ 31 := le_trans h4 (daysInMonth_le y t.month)
  have em := parseMonth_padW
    (r := padW 2 t.day ++ ' ' :: (padW 2 t.hour ++ ':' :: (padW 2 t.minute ++ ':' ::
      (padW 2 t.second ++ '.' :: padW 6 t.micro)))) h1 h2
  have ed := parseDay_padW
    (r := ' ' :: (padW 2 t.hour ++ ':' :: (padW 2 t.minute ++ ':' ::
      (padW 2 t.second ++ '.' :: padW 6 t.micro)))) h3 h4'
  have eh := parseHour_padW
    (r := ':' :: (padW 2 t.minute ++ ':' :: (padW 2 t.second ++ '.' :: padW 6 t.micro))) h5
  have emi := parseMinSec_padW
    (r := ':' :: (padW 2 t.second ++ '.' :: padW 6 t.micro)) h6
  have es := parseMinSec_padW (r := '.' :: padW 6 t.micro) h7
  have emc := parseMicro_padW h8
  rw [renderTS]
  simp only [parseAfterYear, Option.bind_eq_bind, expectChar_cons_self,
    Option.some_bind, em, ed, eh, emi, es, emc]
  rfl

theorem strptimeDTF_render {y : Nat} (t : Stamp) (hy : reprIs4Digits y) (hy1 : 1 ≤ y)
    (ht : wfStamp y t) :
    strptimeDTF ((Nat.repr y).data ++ ' ' :: renderTS t) = some (mkDT y t) := by
  obtain ⟨hl, hdig, hval⟩ := hy
  rw [strptimeDTF, parse4Digits_append _ hl hdig, hval]
  simp only [Option.bind_eq_bind, Option.some_bind]
  rw [parseAfterYear_render t ht]
  simp only [Option.some_bind]
  rw [if_pos ⟨hy1, ht.2.2.2.1⟩]
  rfl

/-- The lexicographic order on rendered klog stamps coincides with chronological
order, for well-formed stamps. -/
theorem renderTS_le_iff {y : Nat} {a b : Stamp} (ha : wfStamp y a) (hb : wfStamp y b) :
    LexLe (renderTS a) (renderTS b) ↔ stampLe a b := by
  obtain ⟨a1, a2, a3, a4, a5, a6, a7, a8⟩ := ha
  obtain ⟨b1, b2, b3, b4, b5, b6, b7, b8⟩ := hb
  have a4' : a.day ≤ 31 := le_trans a4 (daysInMonth_le y a.month)
  have b4' : b.day ≤ 31 := le_trans b4 (daysInMonth_le y b.month)
  have p2 : (10 : Nat) ^ 2 = 100 := by norm_num
  have p6 : (10 : Nat) ^ 6 = 1000000 := by norm_num
  rw [LexLe, renderTS, renderTS, lexLe_cons_same,
    padLexLe 2 a.month b.month _ _ (by omega) (by omega)]
  unfold stampLe stampKey
  rcases Nat.lt_trichotomy a.month b.month with hm | hm | hm
  · rw [if_pos hm]
    simp
    omega
  · rw [if_neg (by omega), if_pos hm,
      padLexLe 2 a.day b.day _ _ (by omega) (by omega)]
    rcases Nat.lt_trichotomy a.day b.day with hd | hd | hd
    · rw [if_pos hd]
      simp
      omega
    · rw [if_neg (by omega), if_pos hd, lexLe_cons_same,
        padLexLe 2 a.hour b.hour _ _ (by omega) (by omega)]
      rcases Nat.lt_trichotomy a.hour b.hour with hh | hh | hh
      · rw [if_pos hh]
        simp
        omega
      · rw [if_neg (by omega), if_pos hh, lexLe_cons_same,
          padLexLe 2 a.minute b.minute _ _ (by omega) (by omega)]
        rcases Nat.lt_trichotomy a.minute b.minute with hmi | hmi | hmi
        · rw [if_pos hmi]
          simp
          omega
        · rw [if_neg (by omega), if_pos hmi, lexLe_cons_same,
            padLexLe 2 a.second b.second _ _ (by omega) (by omega)]
          rcases Nat.lt_trichotomy a.second b.second with hs | hs | hs
          · rw [if_pos hs]
            simp
            omega
          · rw [if_neg (by omega), if_pos hs, lexLe_cons_same]
            have := padLexLe 6 a.micro b.micro [] [] (by omega) (by omega)
            simp only [List.append_nil] at this
            rw [this]
            rcases Nat.lt_trichotomy a.micro b.micro with hmc | hmc | hmc
            · rw [if_pos hmc]
              simp
              omega
            · rw [if_neg (by omega), if_pos hmc]
              simp [lexLe]
              omega
            · rw [if_neg (by omega), if_neg (by omega)]
              simp
              omega
          · rw [if_neg (by omega), if_neg (by omega)]
            simp
            omega
        · rw [if_neg (by omega), if_neg (by omega)]
          simp
          omega
      · rw [if_neg (by omega), if_neg (by omega)]
        simp
        omega
    · rw [if_neg (by omega), if_neg (by omega)]
      simp
      omega
  · rw [if_neg (by omega), if_neg (by omega)]
    simp
    omega

/-! ## Lemmas: reconstructed stat strings -/

theorem strptime_statLine {y : Nat} {l : List Char} (t : Stamp)
    (hl : twoTok l = renderTS t) (hy : reprIs4Digits y) (hy1 : 1 ≤ y)
    (ht : wfStamp y t) : strptimeDTF (statLine y l) = some (mkDT y t) := by
  rw [statLine, hl]
  exact strptimeDTF_render t hy hy1 ht

theorem lexLe_statLine (y : Nat) (l1 l2 : List Char) :
    lexLe (statLine y l1) (statLine y l2) = lexLe (twoTok l1) (twoTok l2) := by
  have h := lexLe_append_same ((Nat.repr y).data ++ [' ']) (twoTok l1) (twoTok l2)
  simpa [statLine] using h

theorem totalSeconds_mkDT_same_date {y : Nat} (a b : Stamp) (hm : a.month = b.month)
    (hd : a.day = b.day) :
    totalSeconds (mkDT y a) (mkDT y b) =
      (((stampKey a : Int) - (stampKey b : Int) : Int) : Rat) / 1000000 := by
  have h : (toMicros (mkDT y a) : Int) - (toMicros (mkDT y b) : Int) =
      (stampKey a : Int) - (stampKey b : Int) := by
    simp only [toMicros, mkDT, toOrdinal, stampKey, hm, hd]
    push_cast
    ring
  rw [totalSeconds, h]

theorem get_start_creation_time_eq {logs name : String} {l : List Char} {y : Nat}
    (t : Stamp)
    (hfil : ((splitLines logs.data).filter
      (fun ln => seqSearch ln (provisionPat name "started"))).head? = some l)
    (hl : twoTok l = renderTS t) (hy : reprIs4Digits y) (hy1 : 1 ≤ y)
    (ht : wfStamp y t) : get_start_creation_time logs name y = .ok (mkDT y t) := by
  simp only [get_start_creation_time, hfil]
  rw [strptime_statLine t hl hy hy1 ht]

theorem get_end_creation_time_eq {logs name : String} {l : List Char} {y : Nat}
    (t : Stamp)
    (hfil : ((splitLines logs.data).filter
      (fun ln => seqSearch ln (provisionPat name "succeeded"))).getLast? = some l)
    (hl : twoTok l = renderTS t) (hy : reprIs4Digits y) (hy1 : 1 ≤ y)
    (ht : wfStamp y t) : get_end_creation_time logs name y = .ok (mkDT y t) := by
  simp only [get_end_creation_time, hfil]
  rw [strptime_statLine t hl hy hy1 ht]

/-! ## Claim C1 -/

/-- Claim C1, counterexample: on a log made of exactly the two `"Jan  5 …"` lines the
claim describes, `measure_pvc_creation_time` does not return `5.0` — the reconstructed
string does not match `DATE_TIME_FORMAT = "%Y I%m%d %H:%M:%S.%f"` (klog shape), so
`strptime` raises `ValueError`. -/
theorem C1_counterexample :
    measure_pvc_creation_time logJan "pvc-a" 2026 = .error .valueError ∧
      measure_pvc_creation_time logJan "pvc-a" 2026 ≠ .ok 5 := by
  constructor
  · decide
  · decide

/-- Claim C1, amended: for a log containing exactly the two klog-format lines
`"I0105 10:00:00.000000 … provision … pvc-a … started"` and
`"I0105 10:00:05.000000 … provision … pvc-a … succeeded"`, measuring the creation
duration of `pvc-a` (with any four-digit current year prepended) returns 5.0 seconds. -/
theorem C1_measure_klog (y : Nat) (hy : reprIs4Digits y) (hy1 : 1 ≤ y) :
    measure_pvc_creation_time logKlog "pvc-a" y = .ok 5 := by
  have hs : get_start_creation_time logKlog "pvc-a" y = .ok (mkDT y ⟨1, 5, 10, 0, 0, 0⟩) :=
    get_start_creation_time_eq (l := klogStartLine.data) ⟨1, 5, 10, 0, 0, 0⟩
      (by decide) (by decide) hy hy1 (by simp [wfStamp, daysInMonth])
  have he : get_end_creation_time logKlog "pvc-a" y = .ok (mkDT y ⟨1, 5, 10, 0, 5, 0⟩) :=
    get_end_creation_time_eq (l := klogEndLine.data) ⟨1, 5, 10, 0, 5, 0⟩
      (by decide) (by decide) hy hy1 (by simp [wfStamp, daysInMonth])
  rw [measure_pvc_creation_time, hs, he]
  show Except.ok (totalSeconds _ _) = _
  rw [totalSeconds_mkDT_same_date ⟨1, 5, 10, 0, 5, 0⟩ ⟨1, 5, 10, 0, 0, 0⟩ rfl rfl]
  norm_num [stampKey]

/-- Claim C1, witness: the amended theorem applied at the concrete year 2026. -/
theorem C1_witness :
    reprIs4Digits 2026 ∧ 1 ≤ 2026 ∧
      measure_pvc_creation_time logKlog "pvc-a" 2026 = .ok 5 :=
  ⟨by decide, by decide, C1_measure_klog 2026 (by decide) (by decide)⟩

/-! ## Claim C4 -/

/-- Claim C4: for every resource whose name equals the default CephFS or default RBD
storage-class name, and for every target state and timeout, `wait_for_resource_state`
returns success immediately, with an empty collaborator trace — in particular the
probe `wait_for_resource` is never invoked. -/
theorem C4_immutable_short_circuit (res : Res) (state : String) (timeout : Nat)
    (h : res.name = DEFAULT_STORAGECLASS_CEPHFS ∨ res.name = DEFAULT_STORAGECLASS_RBD) :
    wait_for_resource_state res state timeout = (.ok .noneV, []) := by
  rw [wait_for_resource_state, if_pos h]

/-- Claim C4, witness: the short circuit applied to a concrete resource named after
the default CephFS storage class, with a probe that would time out if invoked. -/
theorem C4_witness :
    (resDefault.name = DEFAULT_STORAGECLASS_CEPHFS ∨
      resDefault.name = DEFAULT_STORAGECLASS_RBD) ∧
    wait_for_resource_state resDefault "Bound" 60 = (.ok .noneV, []) :=
  ⟨Or.inl rfl, C4_immutable_short_circuit resDefault "Bound" 60 (Or.inl rfl)⟩

/-! ## Claim C3 -/

/-- Claim C3, counterexample: when the diagnostic reload itself raises
(`CommandFailed "reload boom"`), that exception — not the wrong-state error — is the
one surfaced, so the re-fetch failure does mask the original timeout. -/
theorem C3_counterexample :
    (wait_for_resource_state resReloadFails "Running" 60).fst =
      .error (.commandFailed "reload boom") ∧
    (wait_for_resource_state resReloadFails "Running" 60).fst ≠
      .error (.resourceWrongStatus "res-c3" "c3-desc") := by
  constructor
  · decide
  · decide

/-- Claim C3, amended: on timeout `wait_for_resource_state` re-fetches the resource
once; when the re-fetch succeeds, the wrong-state error carrying the diagnostic
description is raised; when the re-fetch itself raises, that exception propagates
and replaces the wrong-state error (the timeout is masked). -/
theorem C3_reload_then_raise (res : Res) (state : String) (timeout : Nat)
    (hname : ¬(res.name = DEFAULT_STORAGECLASS_CEPHFS ∨
      res.name = DEFAULT_STORAGECLASS_RBD))
    (htime : res.waitResult state timeout = .error .timeoutExpired) :
    (res.reloadResult = .ok () →
      wait_for_resource_state res state timeout =
        (.error (.resourceWrongStatus res.name res.describeText),
         [.waitForResource state res.name timeout, .reload res.name,
          .describe res.name])) ∧
    (∀ e', res.reloadResult = .error e' →
      wait_for_resource_state res state timeout =
        (.error e', [.waitForResource state res.name timeout, .reload res.name])) := by
  constructor
  · intro hr
    simp only [wait_for_resource_state, if_neg hname, htime, hr]
  · intro e' hr
    simp only [wait_for_resource_state, if_neg hname, htime, hr]

/-- Claim C3, witness: the amended theorem applied to a resource whose reload
succeeds and to one whose reload raises. -/
theorem C3_witness :
    wait_for_resource_state resReloadOk "Running" 60 =
      (.error (.resourceWrongStatus "res-c3w" "c3w-desc"),
       [.waitForResource "Running" "res-c3w" 60, .reload "res-c3w",
        .describe "res-c3w"]) ∧
    wait_for_resource_state resReloadFails "Running" 60 =
      (.error (.commandFailed "reload boom"),
       [.waitForResource "Running" "res-c3" 60, .reload "res-c3"]) :=
  ⟨(C3_reload_then_raise resReloadOk "Running" 60 (by decide) rfl).1 rfl,
   (C3_reload_then_raise resReloadFails "Running" 60 (by decide) rfl).2
     (.commandFailed "reload boom") rfl⟩

/-! ## Claim C9 -/

/-- Claim C9: `delete_objs_parallel` joins every worker and returns `True`
unconditionally; a failing per-item delete is swallowed by the thread machinery
(visible only in the trace), so the call returns `True` even when a delete raised —
contradicting both the claim and the function's own docstring
("True if obj deleted else False"). -/
theorem C9_delete_swallows :
    delete_objs_parallel [objDeleteFails] =
      (true, [.deleteAttempt "obj-c9" (some (.commandFailed "delete boom"))]) ∧
    ∀ objs : List Res, (delete_objs_parallel objs).fst = true := by
  constructor
  · rfl
  · intro objs
    rfl

/-! ## Claim C6 -/

theorem head?_eq_getLast?_of_length_le_one {α : Type} :
    ∀ (l : List α), l.length ≤ 1 → l.head? = l.getLast?
  | [], _ => rfl
  | [_], _ => rfl
  | _ :: _ :: _, h => by simp at h

/-- Claim C6, counterexample: with two `succeeded` lines for the same subject,
`get_provision_time(…, status="end")` returns the time of the first one while
`get_end_creation_time` returns the time of the last one — the end time produced by
`get_provision_time` is not that of the latest marker, and the two lookups differ. -/
theorem C6_counterexample :
    get_provision_time logTwoSucceededC (.single "pvc-c") "end" 2026 ≠
      get_end_creation_time logTwoSucceededC "pvc-c" 2026 ∧
    get_provision_time logTwoSucceededC (.single "pvc-c") "end" 2026 =
      .ok ⟨2026, 1, 5, 10, 0, 1, 0⟩ ∧
    get_end_creation_time logTwoSucceededC "pvc-c" 2026 =
      .ok ⟨2026, 1, 5, 10, 0, 7, 0⟩ := by
  refine ⟨?_, by decide, by decide⟩
  decide

/-- Claim C6, amended: `get_end_creation_time` returns the time of the *last*
matching `succeeded` line while `get_provision_time(status="end")` uses the *first*;
on every input with at most one matching `succeeded` line the two lookups agree. -/
theorem C6_end_agree (logs name : String) (y : Nat)
    (h : ((splitLines logs.data).filter
      (fun l => seqSearch l (provisionPat name "succeeded"))).length ≤ 1) :
    get_provision_time logs (.single name) "end" y =
      get_end_creation_time logs name y := by
  have hop : (if pyLower "end" = "end" then ("succeeded" : String)
      else "started") = "succeeded" := by decide
  have hhl := head?_eq_getLast?_of_length_le_one _ h
  cases hfl : (splitLines logs.data).filter
      (fun l => seqSearch l (provisionPat name "succeeded")) with
  | nil =>
    rw [hfl] at hhl
    simp only [get_provision_time, get_end_creation_time, hop, hfl]
    rfl
  | cons x t =>
    have ht : t = [] := by
      rw [hfl] at h
      simp at h
      exact h
    subst ht
    simp only [get_provision_time, get_end_creation_time, hop, hfl]
    rfl

/-- Claim C6, witness: the amended theorem applied to a log with exactly one
`succeeded` line for the subject. -/
theorem C6_witness :
    get_provision_time logOneSucceeded (.single "pvc-d") "end" 2026 =
      get_end_creation_time logOneSucceeded "pvc-d" 2026 :=
  C6_end_agree logOneSucceeded "pvc-d" 2026 (by decide)

/-! ## Claim C7 -/

/-- Claim C7, counterexample: the snapshot-time variant does not raise when no line
matches — it returns `None` (a default value) instead of an index/lookup error. -/
theorem C7_counterexample :
    get_snapshot_time "xxx" "yyy" (.single "snap-x") "start" 2026 = .ok none ∧
    ∀ e : Exc, get_snapshot_time "xxx" "yyy" (.single "snap-x") "start" 2026 ≠
      .error e := by
  refine ⟨by decide, ?_⟩
  intro e h
  rw [show get_snapshot_time "xxx" "yyy" (.single "snap-x") "start" 2026 = .ok none
    from by decide] at h
  cases h

/-- Claim C7, amended: when no log line matches both the subject and the requested
marker, `get_provision_time` raises an `IndexError` (propagates, no default), but the
snapshot-time variant `get_snapshot_time` returns `None` instead of raising. -/
theorem C7_no_match_behavior :
    (∀ (logs name status : String) (y : Nat),
      (splitLines logs.data).filter (fun l => seqSearch l (provisionPat name
        (if pyLower status = "end" then "succeeded" else "started"))) = [] →
      get_provision_time logs (.single name) status y = .error .indexError) ∧
    (∀ (sLogs eLogs name status : String) (y : Nat),
      (splitLines sLogs.data).find? (fun l => seqSearch l [name.data] &&
        seqSearch l ["Creating content for snapshot".data]) = none →
      (splitLines eLogs.data).find? (fun l => seqSearch l [name.data] &&
        seqSearch l ["readyToUse true".data]) = none →
      get_snapshot_time sLogs eLogs (.single name) status y = .ok none) := by
  constructor
  · intro logs name status y h
    simp only [get_provision_time, h]
    rfl
  · intro sLogs eLogs name status y hs he
    rw [get_snapshot_time]
    split_ifs
    · simp only [snapStat, get_pattern_time, hs]
      rfl
    · simp only [snapStat, get_pattern_time, he]
      rfl
    · rfl

/-- Claim C7, witness: both parts of the amended theorem applied to concrete logs
with no matching line. -/
theorem C7_witness :
    get_provision_time "zzz" (.single "pvc-none") "start" 2026 = .error .indexError ∧
    get_snapshot_time "zzz" "www" (.single "snap-none") "end" 2026 = .ok none :=
  ⟨C7_no_match_behavior.1 "zzz" "pvc-none" "start" 2026 (by decide),
   C7_no_match_behavior.2 "zzz" "www" "snap-none" "end" 2026 (by decide) (by decide)⟩

/-! ## Claim C5 -/

theorem mapM_of_all_ok {α : Type} (g : String → Except Exc α) (v : String → α) :
    ∀ (names : List String), (∀ n ∈ names, g n = .ok (v n)) →
      names.mapM g = .ok (names.map v)
  | [], _ => rfl
  | a :: t, h => by
    rw [List.mapM_cons, h a (by simp),
      mapM_of_all_ok g v t (fun n hn => h n (by simp [hn]))]
    rfl

theorem pySorted_head_min (v : String → List Char) (names : List String)
    (hne : names ≠ []) :
    ∃ m ∈ names, (pySorted (names.map v)).head? = some (v m) ∧
      ∀ n ∈ names, LexLe (v m) (v n) := by
  have hperm := pySorted_perm (names.map v)
  have hsorted := pySorted_sorted (names.map v)
  rcases hhead : (pySorted (names.map v)).head? with _ | h0
  · exfalso
    rw [List.head?_eq_none_iff] at hhead
    have hlen := hperm.length_eq
    rw [hhead] at hlen
    simp at hlen
    exact hne (List.eq_nil_of_length_eq_zero hlen.symm)
  · have hmem : h0 ∈ names.map v :=
      hperm.mem_iff.mp (List.mem_of_mem_head? (Option.mem_def.mpr hhead))
    rcases List.mem_map.mp hmem with ⟨m, hm, hvm⟩
    refine ⟨m, hm, by rw [hvm], fun n hn => ?_⟩
    have hle := sorted_head_le hsorted hhead (v n)
      (hperm.mem_iff.mpr (List.mem_map_of_mem v hn))
    rw [← hvm] at hle
    exact hle

theorem pySorted_getLast_max (v : String → List Char) (names : List String)
    (hne : names ≠ []) :
    ∃ m ∈ names, (pySorted (names.map v)).getLast? = some (v m) ∧
      ∀ n ∈ names, LexLe (v n) (v m) := by
  have hperm := pySorted_perm (names.map v)
  have hsorted := pySorted_sorted (names.map v)
  rcases hlast : (pySorted (names.map v)).getLast? with _ | h0
  · exfalso
    rw [List.getLast?_eq_none_iff] at hlast
    have hlen := hperm.length_eq
    rw [hlast] at hlen
    simp at hlen
    exact hne (List.eq_nil_of_length_eq_zero hlen.symm)
  · have hmem : h0 ∈ names.map v :=
      hperm.mem_iff.mp (List.mem_of_getLast?_eq_some hlast)
    rcases List.mem_map.mp hmem with ⟨m, hm, hvm⟩
    refine ⟨m, hm, by rw [hvm], fun n hn => ?_⟩
    have hle := sorted_le_getLast hsorted hlast (v n)
      (hperm.mem_iff.mpr (List.mem_map_of_mem v hn))
    rw [← hvm] at hle
    exact hle

/-- Claim C5, counterexample: for the subject list `["pvc-b"]`, where `pvc-b` has at
least one `started` line (10:00:00) and at least one `succeeded` line — so the
original claim's hypothesis is satisfied — but the `succeeded` marker appears at
10:00:05 and again at 10:00:09, the batch end is 10:00:05 (each subject contributes
its *first* matching line), not the latest end 10:00:09 that the claim asserts. -/
theorem C5_counterexample :
    (splitLines logStartTwoEnd.data).filter
      (fun l => seqSearch l (provisionPat "pvc-b" "started")) ≠ [] ∧
    (splitLines logStartTwoEnd.data).filter
      (fun l => seqSearch l (provisionPat "pvc-b" "succeeded")) ≠ [] ∧
    get_provision_time logStartTwoEnd (.multi ["pvc-b"]) "end" 2026 =
      .ok ⟨2026, 1, 5, 10, 0, 5, 0⟩ ∧
    get_provision_time logStartTwoEnd (.multi ["pvc-b"]) "end" 2026 ≠
      .ok ⟨2026, 1, 5, 10, 0, 9, 0⟩ := by
  refine ⟨?_, ?_, ?_, ?_⟩
  · decide
  · decide
  · decide
  · decide

/-- Claim C5, amended: for every nonempty list of subjects such that each subject has
exactly one matching `started` line and exactly one matching `succeeded` line, each
carrying a well-formed fixed-width klog timestamp prefix, batch-mode
`get_provision_time` returns the earliest start across all subjects for
`status="start"` and the latest end across all subjects for `status="end"` (each
subject contributing the stamp of its unique matching line); in particular for
subjects A (start 10:00:00, end 10:00:02) and B (start 10:00:01, end 10:00:05) the
batch start is 10:00:00, the batch end is 10:00:05, and the duration is 5.0 s. -/
theorem C5_batch_earliest_latest :
    (∀ (logs : String) (names : List String) (y : Nat)
       (startStamp endStamp : String → Stamp)
       (startLine endLine : String → List Char),
      names ≠ [] →
      reprIs4Digits y → 1 ≤ y →
      (∀ n ∈ names, wfStamp y (startStamp n) ∧ wfStamp y (endStamp n)) →
      (∀ n ∈ names,
        (splitLines logs.data).filter
          (fun l => seqSearch l (provisionPat n "started")) = [startLine n] ∧
        twoTok (startLine n) = renderTS (startStamp n) ∧
        (splitLines logs.data).filter
          (fun l => seqSearch l (provisionPat n "succeeded")) = [endLine n] ∧
        twoTok (endLine n) = renderTS (endStamp n)) →
      (∃ m ∈ names,
        get_provision_time logs (.multi names) "start" y =
          .ok (mkDT y (startStamp m)) ∧
        ∀ n ∈ names, stampLe (startStamp m) (startStamp n)) ∧
      (∃ m ∈ names,
        get_provision_time logs (.multi names) "end" y =
          .ok (mkDT y (endStamp m)) ∧
        ∀ n ∈ names, stampLe (endStamp n) (endStamp m))) ∧
    (get_provision_time logBatch (.multi ["pvc-a5", "pvc-b5"]) "start" 2026 =
        .ok ⟨2026, 1, 5, 10, 0, 0, 0⟩ ∧
      get_provision_time logBatch (.multi ["pvc-a5", "pvc-b5"]) "end" 2026 =
        .ok ⟨2026, 1, 5, 10, 0, 5, 0⟩ ∧
      totalSeconds ⟨2026, 1, 5, 10, 0, 5, 0⟩ ⟨2026, 1, 5, 10, 0, 0, 0⟩ = 5) := by
  constructor
  · intro logs names y startStamp endStamp startLine endLine hne hy hy1 hwf hlines
    constructor
    · -- status = "start": earliest across subjects
      have hop : (if pyLower "start" = "end" then ("succeeded" : String)
          else "started") = "started" := by decide
      have hmap : names.mapM (fun n =>
          match ((splitLines logs.data).filter
            (fun l => seqSearch l (provisionPat n "started"))).head? with
          | none => Except.error Exc.indexError
          | some l => Except.ok (statLine y l)) =
          .ok (names.map (fun n => statLine y (startLine n))) := by
        refine mapM_of_all_ok _ _ names (fun n hn => ?_)
        rw [(hlines n hn).1]
        rfl
      rcases pySorted_head_min (fun n => statLine y (startLine n)) names hne with
        ⟨m, hm, hhead, hmin⟩
      refine ⟨m, hm, ?_, fun n hn => ?_⟩
      · have hstrp :=
          strptime_statLine (startStamp m) (hlines m hm).2.1 hy hy1 (hwf m hm).1
        simp only [get_provision_time, hop, hmap]
        rw [if_neg (show ¬ pyLower "start" = "end" by decide),
          if_pos (show pyLower "start" = "start" from by decide)]
        rw [hhead]
        simp only [hstrp]
      · have hle := hmin n hn
        rw [LexLe, lexLe_statLine, (hlines m hm).2.1, (hlines n hn).2.1] at hle
        exact (renderTS_le_iff (hwf m hm).1 (hwf n hn).1).mp hle
    · -- status = "end": latest across subjects
      have hop : (if pyLower "end" = "end" then ("succeeded" : String)
          else "started") = "succeeded" := by decide
      have hmap : names.mapM (fun n =>
          match ((splitLines logs.data).filter
            (fun l => seqSearch l (provisionPat n "succeeded"))).head? with
          | none => Except.error Exc.indexError
          | some l => Except.ok (statLine y l)) =
          .ok (names.map (fun n => statLine y (endLine n))) := by
        refine mapM_of_all_ok _ _ names (fun n hn => ?_)
        rw [(hlines n hn).2.2.1]
        rfl
      rcases pySorted_getLast_max (fun n => statLine y (endLine n)) names hne with
        ⟨m, hm, hlast, hmax⟩
      refine ⟨m, hm, ?_, fun n hn => ?_⟩
      · have hstrp :=
          strptime_statLine (endStamp m) (hlines m hm).2.2.2 hy hy1 (hwf m hm).2
        simp only [get_provision_time, hop, hmap]
        rw [if_pos (show pyLower "end" = "end" from by decide)]
        rw [hlast]
        simp only [hstrp]
      · have hle := hmax n hn
        rw [LexLe, lexLe_statLine, (hlines m hm).2.2.2, (hlines n hn).2.2.2] at hle
        exact (renderTS_le_iff (hwf n hn).2 (hwf m hm).2).mp hle
  · refine ⟨by decide, by decide, ?_⟩
    show totalSeconds (mkDT 2026 ⟨1, 5, 10, 0, 5, 0⟩) (mkDT 2026 ⟨1, 5, 10, 0, 0, 0⟩) = 5
    rw [totalSeconds_mkDT_same_date ⟨1, 5, 10, 0, 5, 0⟩ ⟨1, 5, 10, 0, 0, 0⟩ rfl rfl]
    norm_num [stampKey]

/-- Claim C5, witness: the amended theorem applied to the concrete two-subject batch
log, with the per-subject stamps and lines given explicitly. -/
theorem C5_witness :
    (∃ m ∈ ["pvc-a5", "pvc-b5"],
      get_provision_time logBatch (.multi ["pvc-a5", "pvc-b5"]) "start" 2026 =
        .ok (mkDT 2026 (c5StartStamp m)) ∧
      ∀ n ∈ ["pvc-a5", "pvc-b5"], stampLe (c5StartStamp m) (c5StartStamp n)) ∧
    (∃ m ∈ ["pvc-a5", "pvc-b5"],
      get_provision_time logBatch (.multi ["pvc-a5", "pvc-b5"]) "end" 2026 =
        .ok (mkDT 2026 (c5EndStamp m)) ∧
      ∀ n ∈ ["pvc-a5", "pvc-b5"], stampLe (c5EndStamp n) (c5EndStamp m)) :=
  C5_batch_earliest_latest.1 logBatch ["pvc-a5", "pvc-b5"] 2026
    c5StartStamp c5EndStamp c5StartLine c5EndLine
    (by decide) (by decide) (by decide) (by decide) (by decide)

/-! ## Claim C8 -/

theorem isEmpty_false_of_ne_nil {α : Type} {l : List α} (h : l ≠ []) :
    ¬ l.isEmpty = true := by
  cases l with
  | nil => exact absurd rfl h
  | cons a t =>
    intro hh
    rw [List.isEmpty_iff_length_eq_zero] at hh
    simp at hh

theorem bind_eq_ok {ε α β : Type} {x : Except ε α} {k : α → Except ε β} {b : β} :
    x >>= k = .ok b → ∃ a, x = .ok a ∧ k a = .ok b := by
  cases x with
  | ok v => intro h; exact ⟨v, rfl, h⟩
  | error e =>
    intro h
    rw [show ((Except.error e : Except ε α) >>= k) = Except.error e from rfl] at h
    cases h

theorem bulkLoop_congr (patS patE : String → List (List Char)) (names : List String)
    (f f' : Nat → String) :
    ∀ (fuel idx : Nat) (lines : List (List Char)),
      (∀ i, i ≤ idx + fuel + 1 → f i = f' i) →
      bulkLoop f patS patE names fuel idx lines =
        bulkLoop f' patS patE names fuel idx lines
  | 0, idx, lines, h => by
    rw [bulkLoop, bulkLoop, h (idx + 1) (by omega)]
  | fuel + 1, idx, lines, h => by
    rw [bulkLoop, bulkLoop, h (idx + 1) (by omega)]
    by_cases hnd : (bulkNoData lines patS patE names).isEmpty
    · rw [if_pos hnd, if_pos hnd]
    · rw [if_neg hnd, if_neg hnd]
      exact bulkLoop_congr patS patE names f f' fuel (idx + 1) _
        (fun i hi => h i (by omega))

theorem bulkLoop_raises (f : Nat → String) (patS patE : String → List (List Char))
    (names : List String) :
    ∀ (fuel idx : Nat), fuel + idx = 5 →
      (∀ i, idx ≤ i → i ≤ 5 →
        bulkNoData (splitLines (f i).data) patS patE names ≠ []) →
      bulkLoop f patS patE names fuel idx (splitLines (f idx).data) =
        .error (.unexpectedBehaviour
          (bulkNoData (splitLines (f 5).data) patS patE names))
  | 0, idx, hsum, h => by
    have hidx : idx = 5 := by omega
    subst hidx
    rw [bulkLoop]
    rw [if_neg (isEmpty_false_of_ne_nil (h 5 (by omega) (by omega)))]
  | fuel + 1, idx, hsum, h => by
    rw [bulkLoop]
    rw [if_neg (isEmpty_false_of_ne_nil (h idx (by omega) (by omega)))]
    exact bulkLoop_raises f patS patE names fuel (idx + 1) (by omega)
      (fun i h1 h2 => h i (by omega) h2)

theorem mapM_ok_keys {β : Type} (f : String → Except Exc (String × β))
    (hf : ∀ n r, f n = .ok r → r.1 = n) :
    ∀ (names : List String) (d : List (String × β)),
      names.mapM f = .ok d → ∀ n ∈ names, ∃ q, (n, q) ∈ d
  | [], d, hd, n, hn => by cases hn
  | a :: t, d, hd, n, hn => by
    rw [List.mapM_cons] at hd
    rcases bind_eq_ok hd with ⟨b, hfa, hd2⟩
    rcases bind_eq_ok hd2 with ⟨bs, hft, hpure⟩
    have hdd : d = b :: bs := by
      have := hpure
      rw [show (pure (b :: bs) : Except Exc (List (String × β))) = .ok (b :: bs)
        from rfl] at this
      cases this
      rfl
    subst hdd
    rcases List.mem_cons.mp hn with rfl | hn'
    · refine ⟨b.2, ?_⟩
      have hb1 := hf n b hfa
      have hbb : (n, b.2) = b := by
        rw [← hb1]
      rw [hbb]
      exact List.mem_cons_self b bs
    · rcases mapM_ok_keys f hf t bs hft n hn' with ⟨q, hq⟩
      exact ⟨q, List.mem_cons_of_mem b hq⟩

theorem bulkEntry_key (lines : List (List Char)) (patS patE : String → List (List Char))
    (y : Nat) :
    ∀ (n : String) (r : String × Rat),
      (match (lines.filter (fun l => seqSearch l (patS n))).head? with
       | none => Except.error Exc.indexError
       | some ls =>
         match (lines.filter (fun l => seqSearch l (patE n))).head? with
         | none => Except.error Exc.indexError
         | some le_ =>
           match strptimeDTF (statLine y ls), strptimeDTF (statLine y le_) with
           | some st, some en => Except.ok (n, totalSeconds en st)
           | _, _ => Except.error Exc.valueError) = .ok r → r.1 = n := by
  intro n r h
  split at h
  · cases h
  · split at h
    · cases h
    · split at h
      · injection h with h'
        rw [← h']
      · cases h

/-- Claim C8: for both bulk timing functions — (a) the result depends only on the
initial fetch and the at most six re-fetches (fetch indices 0..6), so the logs are
re-fetched at most six times; (b) when every fetched log up to the last checked one
still lacks a start or end line for some subject, the call raises
`UnexpectedBehaviour` naming a nonempty set of subjects without data, all drawn from
the requested list; (c) whenever a result dictionary is returned it contains an
entry for every requested subject (no omission, no silent zero for missing data). -/
theorem C8_bulk_bounded_refetch :
    ((∀ (f f' : Nat → String) (names : List String) (y : Nat),
      (∀ i, i ≤ 6 → f i = f' i) →
      measure_pvc_creation_time_bulk f names y =
        measure_pvc_creation_time_bulk f' names y) ∧
    (∀ (f : Nat → String) (names : List String) (y : Nat),
      (∀ i, i ≤ 5 →
        bulkNoData (splitLines (f i).data) pvcBulkPatS pvcBulkPatE names ≠ []) →
      measure_pvc_creation_time_bulk f names y =
        .error (.unexpectedBehaviour
          (bulkNoData (splitLines (f 5).data) pvcBulkPatS pvcBulkPatE names)) ∧
      bulkNoData (splitLines (f 5).data) pvcBulkPatS pvcBulkPatE names ≠ [] ∧
      ∀ n ∈ bulkNoData (splitLines (f 5).data) pvcBulkPatS pvcBulkPatE names,
        n ∈ names) ∧
    (∀ (f : Nat → String) (names : List String) (y : Nat) (d : List (String × Rat)),
      measure_pvc_creation_time_bulk f names y = .ok d →
      ∀ n ∈ names, ∃ q, (n, q) ∈ d)) ∧
    ((∀ (f f' : Nat → String) (names : List String) (y : Nat),
      (∀ i, i ≤ 6 → f i = f' i) →
      measure_pv_deletion_time_bulk f names y =
        measure_pv_deletion_time_bulk f' names y) ∧
    (∀ (f : Nat → String) (names : List String) (y : Nat),
      (∀ i, i ≤ 5 →
        bulkNoData (splitLines (f i).data) pvBulkPatS pvBulkPatE names ≠ []) →
      measure_pv_deletion_time_bulk f names y =
        .error (.unexpectedBehaviour
          (bulkNoData (splitLines (f 5).data) pvBulkPatS pvBulkPatE names)) ∧
      bulkNoData (splitLines (f 5).data) pvBulkPatS pvBulkPatE names ≠ [] ∧
      ∀ n ∈ bulkNoData (splitLines (f 5).data) pvBulkPatS pvBulkPatE names,
        n ∈ names) ∧
    (∀ (f : Nat → String) (names : List String) (y : Nat) (d : List (String × Rat)),
      measure_pv_deletion_time_bulk f names y = .ok d →
      ∀ n ∈ names, ∃ q, (n, q) ∈ d)) := by
  refine ⟨⟨?_, ?_, ?_⟩, ⟨?_, ?_, ?_⟩⟩
  · intro f f' names y h
    have hl : bulkLoop f pvcBulkPatS pvcBulkPatE names 5 0 (splitLines (f 0).data) =
        bulkLoop f' pvcBulkPatS pvcBulkPatE names 5 0 (splitLines (f' 0).data) := by
      rw [h 0 (by omega)]
      exact bulkLoop_congr pvcBulkPatS pvcBulkPatE names f f' 5 0 _
        (fun i hi => h i (by omega))
    simp only [measure_pvc_creation_time_bulk, hl]
  · intro f names y h
    have hb := bulkLoop_raises f pvcBulkPatS pvcBulkPatE names 5 0 (by omega)
      (fun i _ h2 => h i h2)
    refine ⟨?_, h 5 (by omega), fun n hn => (List.mem_filter.mp hn).1⟩
    simp only [measure_pvc_creation_time_bulk, hb]
    rfl
  · intro f names y d hd
    rw [measure_pvc_creation_time_bulk] at hd
    rcases bind_eq_ok hd with ⟨lines, _, hmap⟩
    exact mapM_ok_keys _ (bulkEntry_key lines pvcBulkPatS pvcBulkPatE y) names d hmap
  · intro f f' names y h
    have hl : bulkLoop f pvBulkPatS pvBulkPatE names 5 0 (splitLines (f 0).data) =
        bulkLoop f' pvBulkPatS pvBulkPatE names 5 0 (splitLines (f' 0).data) := by
      rw [h 0 (by omega)]
      exact bulkLoop_congr pvBulkPatS pvBulkPatE names f f' 5 0 _
        (fun i hi => h i (by omega))
    simp only [measure_pv_deletion_time_bulk, hl]
  · intro f names y h
    have hb := bulkLoop_raises f pvBulkPatS pvBulkPatE names 5 0 (by omega)
      (fun i _ h2 => h i h2)
    refine ⟨?_, h 5 (by omega), fun n hn => (List.mem_filter.mp hn).1⟩
    simp only [measure_pv_deletion_time_bulk, hb]
    rfl
  · intro f names y d hd
    rw [measure_pv_deletion_time_bulk] at hd
    rcases bind_eq_ok hd with ⟨lines, _, hmap⟩
    exact mapM_ok_keys _ (bulkEntry_key lines pvBulkPatS pvBulkPatE y) names d hmap

/-- Claim C8, witness: the three parts applied to concrete fetch streams — a stream
with data only after the seventh re-fetch is indistinguishable from an always-empty
stream; an always-empty stream makes both bulk functions raise naming the subject;
a stream with data yields a dictionary containing the subject. -/
theorem C8_witness :
    measure_pvc_creation_time_bulk fetchEmpty ["pvc-c8"] 2026 =
      measure_pvc_creation_time_bulk fetchLate ["pvc-c8"] 2026 ∧
    measure_pvc_creation_time_bulk fetchEmpty ["pvc-c8"] 2026 =
      .error (.unexpectedBehaviour
        (bulkNoData (splitLines (fetchEmpty 5).data) pvcBulkPatS pvcBulkPatE
          ["pvc-c8"])) ∧
    measure_pv_deletion_time_bulk fetchEmpty ["pv-c8"] 2026 =
      .error (.unexpectedBehaviour
        (bulkNoData (splitLines (fetchEmpty 5).data) pvBulkPatS pvBulkPatE
          ["pv-c8"])) ∧
    (∃ q, ("pvc-c8", q) ∈
      [("pvc-c8",
        totalSeconds (mkDT 2026 ⟨1, 5, 10, 0, 3, 0⟩) (mkDT 2026 ⟨1, 5, 10, 0, 0, 0⟩))]) ∧
    (∃ q, ("pv-c8", q) ∈
      [("pv-c8",
        totalSeconds (mkDT 2026 ⟨1, 5, 10, 0, 4, 0⟩) (mkDT 2026 ⟨1, 5, 10, 0, 0, 0⟩))]) := by
  refine ⟨?_, ?_, ?_, ?_, ?_⟩
  · exact C8_bulk_bounded_refetch.1.1 fetchEmpty fetchLate ["pvc-c8"] 2026
      (fun i hi => by rw [fetchEmpty, fetchLate]; rw [if_pos hi])
  · exact (C8_bulk_bounded_refetch.1.2.1 fetchEmpty ["pvc-c8"] 2026
      (fun i _ => by rw [show fetchEmpty i = "no relevant content" from rfl]; decide)).1
  · exact (C8_bulk_bounded_refetch.2.2.1 fetchEmpty ["pv-c8"] 2026
      (fun i _ => by rw [show fetchEmpty i = "no relevant content" from rfl]; decide)).1
  · exact C8_bulk_bounded_refetch.1.2.2 fetchPvcData ["pvc-c8"] 2026 _ rfl "pvc-c8"
      (by simp)
  · exact C8_bulk_bounded_refetch.2.2.2 fetchPvData ["pv-c8"] 2026 _ rfl "pv-c8"
      (by simp)

/-! ## Claim C10 -/

/-- Claim C10, counterexample: with a 40-character `resource_type` the result does
not begin with `"{resource_type}-"` (the 40-character truncation cuts the dash off),
even though the length bound still holds. -/
theorem C10_counterexample :
    (typeA40 ++ ['-']).isPrefixOf (create_unique_resource_name [] typeA40 uuid32) =
      false ∧
    (create_unique_resource_name [] typeA40 uuid32).length ≤ 40 := by
  constructor
  · decide
  · decide

/-- Claim C10, amended: `create_unique_resource_name` always returns at most 40
characters; whenever the resource type has at most 39 characters the result begins
with `"{resource_type}-"`; and the result is always a prefix of
`{resource_type}-{description[:23]}-{uuid_hex}` (so what follows the type is at most
the first 23 characters of the description, then `-` and the uuid suffix). -/
theorem C10_name_shape (desc ty uuid : List Char) :
    (create_unique_resource_name desc ty uuid).length ≤ 40 ∧
    (ty.length ≤ 39 →
      (ty ++ ['-']).isPrefixOf (create_unique_resource_name desc ty uuid) = true) ∧
    (create_unique_resource_name desc ty uuid).isPrefixOf
      (ty ++ '-' :: desc.take 23 ++ '-' :: uuid) = true := by
  rw [create_unique_resource_name]
  set name := ty ++ '-' :: desc.take 23 ++ '-' :: uuid with hname
  have hpre : (ty ++ ['-']) <+: name := by
    refine ⟨desc.take 23 ++ '-' :: uuid, ?_⟩
    simp [hname]
  by_cases hlen : name.length < 40
  · rw [if_pos hlen]
    refine ⟨by omega, fun _ => ?_, ?_⟩
    · exact List.isPrefixOf_iff_prefix.mpr hpre
    · exact List.isPrefixOf_iff_prefix.mpr (List.prefix_refl name)
  · rw [if_neg hlen]
    refine ⟨by simp, fun hty => ?_, ?_⟩
    · refine List.isPrefixOf_iff_prefix.mpr (List.prefix_take_iff.mpr ⟨hpre, ?_⟩)
      simp
      omega
    · exact List.isPrefixOf_iff_prefix.mpr (List.take_prefix 40 name)

/-! ## Claim C2 -/

theorem noDeleteEv_nil : noDeleteEv [] := rfl

theorem noDeleteEv_append {a b : List Ev} (ha : noDeleteEv a) (hb : noDeleteEv b) :
    noDeleteEv (a ++ b) := by
  rw [noDeleteEv, List.all_append]
  rw [noDeleteEv] at ha hb
  rw [ha, hb]
  rfl

theorem noDeleteEv_flatten {L : List (List Ev)} (h : ∀ x ∈ L, noDeleteEv x) :
    noDeleteEv L.flatten := by
  induction L with
  | nil => exact noDeleteEv_nil
  | cons x t ih =>
    rw [List.flatten_cons]
    exact noDeleteEv_append (h x (by simp)) (ih fun x hx => h x (by simp [hx]))

theorem noDeleteEv_wait (res : Res) (state : String) (timeout : Nat) :
    noDeleteEv (wait_for_resource_state res state timeout).snd := by
  rw [wait_for_resource_state]
  split_ifs
  · exact noDeleteEv_nil
  · split
    · simp [noDeleteEv, isDeleteEv]
    · split
      · simp [noDeleteEv, isDeleteEv]
      · simp [noDeleteEv, isDeleteEv]
    · simp [noDeleteEv, isDeleteEv]

theorem noDeleteEv_createPvcs (ams : List String) :
    noDeleteEv (ams.map Ev.createPvcs) := by
  rw [noDeleteEv, List.all_eq_true]
  intro ev hev
  rcases List.mem_map.mp hev with ⟨m, _, rfl⟩
  rfl

theorem noDeleteEv_createPods (ps : List Res) :
    noDeleteEv (ps.map (fun p => Ev.createPod p.name)) := by
  rw [noDeleteEv, List.all_eq_true]
  intro ev hev
  rcases List.mem_map.mp hev with ⟨m, _, rfl⟩
  rfl

/-- Claim C2, counterexample: creations all succeed but one PVC's state-wait fails;
the batch call raises that item's `ResourceWrongStatusException` (re-raised at the
join), not an aggregated `TimeoutExpiredError` as the claim states. -/
theorem C2_counterexample :
    (create_multiple_pvc_parallel createResultC2 ["ReadWriteOnce"]).fst =
      .error (.resourceWrongStatus "pvc-bad" "bad-desc") ∧
    (create_multiple_pvc_parallel createResultC2 ["ReadWriteOnce"]).fst ≠
      .error .timeoutExpired := by
  constructor
  · rfl
  · intro h
    cases h

/-- Claim C2, amended: for every batch creation in which all creations succeed and at
least one resource's state-wait raises, the batch call
(`create_multiple_pvc_parallel` / `create_pods_parallel`) raises the first failing
wait's exception (the per-item resource-wrong-state error re-raised at the join
point, which identifies the failing resource); it performs each creation exactly once
(no retry) and never deletes the already-created resources (the trace is exactly the
per-mode/per-item create events followed by the per-item wait events, with no delete
event). The aggregated `TimeoutExpiredError` branch is unreachable because the waiter
never returns `False`. -/
theorem C2_wait_failure_propagates :
    (∀ (createResult : String → Except Exc (List Res)) (access_modes : List String)
        (rl : List (List Res)) (e : Exc),
      access_modes.mapM createResult = .ok rl →
      ((converge_lists rl).map
        (fun o => (wait_for_resource_state o "Bound" 90).fst)).mapM id = .error e →
      create_multiple_pvc_parallel createResult access_modes =
        (.error e, access_modes.map Ev.createPvcs ++
          ((converge_lists rl).map
            (fun o => (wait_for_resource_state o "Bound" 90).snd)).flatten) ∧
      noDeleteEv (create_multiple_pvc_parallel createResult access_modes).snd) ∧
    (∀ (pvc_list : List Res) (createPod : String → Except Exc Res)
        (pods : List Res) (e : Exc),
      pvc_list.mapM (fun p => createPod p.name) = .ok pods →
      (pods.map
        (fun o => (wait_for_resource_state o "Running" 300).fst)).mapM id = .error e →
      create_pods_parallel pvc_list createPod =
        (.error e, pvc_list.map (fun p => Ev.createPod p.name) ++
          (pods.map
            (fun o => (wait_for_resource_state o "Running" 300).snd)).flatten) ∧
      noDeleteEv (create_pods_parallel pvc_list createPod).snd) := by
  constructor
  · intro createResult access_modes rl e h1 h2
    have heq : create_multiple_pvc_parallel createResult access_modes =
        (.error e, access_modes.map Ev.createPvcs ++
          ((converge_lists rl).map
            (fun o => (wait_for_resource_state o "Bound" 90).snd)).flatten) := by
      simp only [create_multiple_pvc_parallel, h1, List.map_map, Function.comp_def, h2]
    refine ⟨heq, ?_⟩
    rw [congrArg Prod.snd heq]
    exact noDeleteEv_append (noDeleteEv_createPvcs _)
      (noDeleteEv_flatten (by
        intro x hx
        rcases List.mem_map.mp hx with ⟨o, _, rfl⟩
        exact noDeleteEv_wait o "Bound" 90))
  · intro pvc_list createPod pods e h1 h2
    have heq : create_pods_parallel pvc_list createPod =
        (.error e, pvc_list.map (fun p => Ev.createPod p.name) ++
          (pods.map
            (fun o => (wait_for_resource_state o "Running" 300).snd)).flatten) := by
      simp only [create_pods_parallel, h1, List.map_map, Function.comp_def, h2]
    refine ⟨heq, ?_⟩
    rw [congrArg Prod.snd heq]
    exact noDeleteEv_append (noDeleteEv_createPods _)
      (noDeleteEv_flatten (by
        intro x hx
        rcases List.mem_map.mp hx with ⟨o, _, rfl⟩
        exact noDeleteEv_wait o "Running" 300))

/-- Claim C2, witness: the amended theorem applied to a concrete two-PVC batch whose
second PVC fails its `Bound` wait, and to a concrete one-pod batch whose pod fails
its `Running` wait. -/
theorem C2_witness :
    (create_multiple_pvc_parallel createResultC2 ["ReadWriteOnce"] =
      (.error (.resourceWrongStatus "pvc-bad" "bad-desc"),
        ["ReadWriteOnce"].map Ev.createPvcs ++
          ((converge_lists [[pvcOkC2, pvcBadC2]]).map
            (fun o => (wait_for_resource_state o "Bound" 90).snd)).flatten) ∧
      noDeleteEv (create_multiple_pvc_parallel createResultC2 ["ReadWriteOnce"]).snd) ∧
    (create_pods_parallel [pvcOkC2] createPodC2 =
      (.error (.resourceWrongStatus "pod-bad" "pod-desc"),
        [pvcOkC2].map (fun p => Ev.createPod p.name) ++
          ([podObjC2].map
            (fun o => (wait_for_resource_state o "Running" 300).snd)).flatten) ∧
      noDeleteEv (create_pods_parallel [pvcOkC2] createPodC2).snd) :=
  ⟨C2_wait_failure_propagates.1 createResultC2 ["ReadWriteOnce"] [[pvcOkC2, pvcBadC2]]
      (.resourceWrongStatus "pvc-bad" "bad-desc") rfl rfl,
   C2_wait_failure_propagates.2 [pvcOkC2] createPodC2 [podObjC2]
      (.resourceWrongStatus "pod-bad" "pod-desc") rfl rfl⟩

/-- Claim C10, witness: the amended theorem applied to a short type and a
40-character truncating input. -/
theorem C10_witness :
    (create_unique_resource_name "description".data "pvc".data uuid32).length ≤ 40 ∧
    ("pvc".data ++ ['-']).isPrefixOf
      (create_unique_resource_name "description".data "pvc".data uuid32) = true ∧
    (create_unique_resource_name "description".data "pvc".data uuid32).isPrefixOf
      ("pvc".data ++ '-' :: "description".data.take 23 ++ '-' :: uuid32) = true := by
  have h := C10_name_shape "description".data "pvc".data uuid32
  exact ⟨h.1, h.2.1 (by decide), h.2.2⟩

end OcsHelpers
